import Mathlib

/-!
# Verification of `s3/client_op_object_copy.go`

A shallow embedding of the `CopyObject` adapter of the S3 wrapper:

* `CopyObjectRequest.ToInput` (request adapter, source lines 74-191),
* `NewCopyObjectResult` (result adapter, source lines 209-253),
* `S3.CopyObject` (operation invocation, source lines 15-26).

Go strings are modelled by `String` (only equality with the empty string,
concatenation and literals are used), a Go pointer `*T` by `Option T`
(`none` is `nil`), a slice by an optional list (`none` is the nil slice), and
a function that can panic returns a `Run`.
-/

namespace s3

/-! ## Go standard library -/

/-- Go `time.Time`, kept to what the adapter can observe: the instant as
seconds and nanoseconds since January 1, year 1 00:00:00 UTC, and the
location the value carries (`0` for the nil location, which means UTC). -/
structure Time where
  sec : Int := 0
  nsec : Nat := 0
  loc : Nat := 0
deriving DecidableEq, Repr, Inhabited

/-- Go `Time.IsZero`: the instant is January 1, year 1, 00:00:00 UTC.
The location is not looked at. -/
def Time.IsZero (t : Time) : Bool :=
  t.sec == 0 && t.nsec == 0

/-- Go `strings.Join`: no element gives the empty string, one element gives
that element, otherwise the first element is written to a builder and every
further element is written after a separator. -/
def strings.Join (elems : List String) (sep : String) : String :=
  match elems with
  | [] => ""
  | [e] => e
  | e :: rest => rest.foldl (fun b s => b ++ sep ++ s) e

/-- What running a Go function gives: the value it returns, or a run-time
panic (here always the dereference of a nil pointer). -/
inductive Run (α : Type) where
  | returns (a : α)
  | panics
deriving DecidableEq, Repr

/-! ## Types declared outside the source file -/

/-- Modelled from the spec: `pointers.String` of the package
`private/pointers` is not in the source file; it boxes a string into a
pointer ("explicit pointer boxing for optional fields"), so the result is a
non-nil pointer to the given string. -/
def pointers.String (s : String) : Option String :=
  some s

/-- Wrapper type `Tag`, with the two fields the adapter reads. -/
structure Tag where
  Key : String := ""
  Value : String := ""
deriving DecidableEq, Repr, Inhabited

/-- Go slice `[]Tag`: `none` is the nil slice, `some l` a slice that is not
nil and holds the elements `l` (`some []` is the empty slice). -/
abbrev TagSlice := Option (List Tag)

/-- Go `len` of a slice; the nil slice has length 0. -/
def TagSlice.len (s : TagSlice) : Nat :=
  match s with
  | none => 0
  | some l => l.length

/-- The elements a `range` loop over the slice visits, in order; none for
the nil slice. -/
def TagSlice.elems (s : TagSlice) : List Tag :=
  match s with
  | none => []
  | some l => l

/-- Wrapper enum `type ObjectCannedACL string`. -/
structure ObjectCannedACL where
  val : String := ""
deriving DecidableEq, Repr, Inhabited

/-- Wrapper enum `type MetadataDirective string`. -/
structure MetadataDirective where
  val : String := ""
deriving DecidableEq, Repr, Inhabited

/-- Wrapper enum `type ObjectLockLegalHoldStatus string`. -/
structure ObjectLockLegalHoldStatus where
  val : String := ""
deriving DecidableEq, Repr, Inhabited

/-- Wrapper enum `type ObjectLockMode string`. -/
structure ObjectLockMode where
  val : String := ""
deriving DecidableEq, Repr, Inhabited

/-- Wrapper enum `type RequestPayer string`. -/
structure RequestPayer where
  val : String := ""
deriving DecidableEq, Repr, Inhabited

/-- Wrapper enum `type RequestCharged string`. -/
structure RequestCharged where
  val : String := ""
deriving DecidableEq, Repr, Inhabited

/-- Wrapper enum `type ServerSideEncryption string`. -/
structure ServerSideEncryption where
  val : String := ""
deriving DecidableEq, Repr, Inhabited

/-- Wrapper enum `type StorageClass string`. -/
structure StorageClass where
  val : String := ""
deriving DecidableEq, Repr, Inhabited

/-- Wrapper enum `type TaggingDirective string`. -/
structure TaggingDirective where
  val : String := ""
deriving DecidableEq, Repr, Inhabited

/-- SDK enum `type ObjectCannedACL string`. -/
structure SDK.ObjectCannedACL where
  val : String := ""
deriving DecidableEq, Repr, Inhabited

/-- SDK enum `type MetadataDirective string`. -/
structure SDK.MetadataDirective where
  val : String := ""
deriving DecidableEq, Repr, Inhabited

/-- SDK enum `type ObjectLockLegalHoldStatus string`. -/
structure SDK.ObjectLockLegalHoldStatus where
  val : String := ""
deriving DecidableEq, Repr, Inhabited

/-- SDK enum `type ObjectLockMode string`. -/
structure SDK.ObjectLockMode where
  val : String := ""
deriving DecidableEq, Repr, Inhabited

/-- SDK enum `type RequestPayer string`. -/
structure SDK.RequestPayer where
  val : String := ""
deriving DecidableEq, Repr, Inhabited

/-- SDK enum `type RequestCharged string`. -/
structure SDK.RequestCharged where
  val : String := ""
deriving DecidableEq, Repr, Inhabited

/-- SDK enum `type ServerSideEncryption string`. -/
structure SDK.ServerSideEncryption where
  val : String := ""
deriving DecidableEq, Repr, Inhabited

/-- SDK enum `type StorageClass string`. -/
structure SDK.StorageClass where
  val : String := ""
deriving DecidableEq, Repr, Inhabited

/-- SDK enum `type TaggingDirective string`. -/
structure SDK.TaggingDirective where
  val : String := ""
deriving DecidableEq, Repr, Inhabited

/-- Go `map[string]string`: `none` is the nil map, `some kvs` a map holding
the listed entries. -/
abbrev StringMap := Option (List (String × String))

/-- SDK `CopyObjectInput`, with the fields `ToInput` assigns. Every default
is the Go zero value of the field. -/
structure SDK.CopyObjectInput where
  ACL : SDK.ObjectCannedACL := {}
  Bucket : Option String := none
  CacheControl : Option String := none
  ContentDisposition : Option String := none
  ContentEncoding : Option String := none
  ContentLanguage : Option String := none
  ContentType : Option String := none
  CopySource : Option String := none
  CopySourceIfMatch : Option String := none
  CopySourceIfModifiedSince : Option Time := none
  CopySourceIfNoneMatch : Option String := none
  CopySourceIfUnmodifiedSince : Option Time := none
  CopySourceSSECustomerAlgorithm : Option String := none
  CopySourceSSECustomerKey : Option String := none
  CopySourceSSECustomerKeyMD5 : Option String := none
  Expires : Option Time := none
  GrantFullControl : Option String := none
  GrantRead : Option String := none
  GrantReadACP : Option String := none
  GrantWriteACP : Option String := none
  Key : Option String := none
  Metadata : StringMap := none
  MetadataDirective : SDK.MetadataDirective := {}
  ObjectLockLegalHoldStatus : SDK.ObjectLockLegalHoldStatus := {}
  ObjectLockMode : SDK.ObjectLockMode := {}
  ObjectLockRetainUntilDate : Option Time := none
  RequestPayer : SDK.RequestPayer := {}
  SSECustomerAlgorithm : Option String := none
  SSECustomerKey : Option String := none
  SSECustomerKeyMD5 : Option String := none
  SSEKMSEncryptionContext : Option String := none
  SSEKMSKeyId : Option String := none
  ServerSideEncryption : SDK.ServerSideEncryption := {}
  StorageClass : SDK.StorageClass := {}
  Tagging : Option String := none
  TaggingDirective : SDK.TaggingDirective := {}
  WebsiteRedirectLocation : Option String := none
deriving DecidableEq, Repr, Inhabited

/-! ## Request -/

/-- Source lines 29-72: `CopyObjectRequest`. -/
structure CopyObjectRequest where
  Bucket : String := ""
  Key : String := ""
  CopySource : String := ""
  ACL : ObjectCannedACL := {}
  CacheControl : String := ""
  ContentDisposition : String := ""
  ContentEncoding : String := ""
  ContentLanguage : String := ""
  ContentType : String := ""
  CopySourceIfMatch : String := ""
  CopySourceIfModifiedSince : Time := {}
  CopySourceIfNoneMatch : String := ""
  CopySourceIfUnmodifiedSince : Time := {}
  CopySourceSSECustomerAlgorithm : String := ""
  CopySourceSSECustomerKey : String := ""
  CopySourceSSECustomerKeyMD5 : String := ""
  Expires : Time := {}
  GrantFullControl : String := ""
  GrantRead : String := ""
  GrantReadACP : String := ""
  GrantWriteACP : String := ""
  Metadata : StringMap := none
  MetadataDirective : MetadataDirective := {}
  ObjectLockLegalHoldStatus : ObjectLockLegalHoldStatus := {}
  ObjectLockMode : ObjectLockMode := {}
  ObjectLockRetainUntilDate : Time := {}
  RequestPayer : RequestPayer := {}
  SSECustomerAlgorithm : String := ""
  SSECustomerKey : String := ""
  SSECustomerKeyMD5 : String := ""
  SSEKMSEncryptionContext : String := ""
  SSEKMSKeyID : String := ""
  ServerSideEncryption : ServerSideEncryption := {}
  StorageClass : StorageClass := {}
  Tagging : String := ""
  TaggingDirective : TaggingDirective := {}
  WebsiteRedirectLocation : String := ""
  TaggingTagSet : TagSlice := none
deriving DecidableEq, Repr, Inhabited

/-- Source lines 170-180: the local `tags` of `ToInput` just before the test
`tags != ""`. The loop over the tag set appends one element per entry. -/
def CopyObjectRequest.tags (r : CopyObjectRequest) : String :=
  let tags := r.Tagging
  if TagSlice.len r.TaggingTagSet ≠ 0 then
    let tt : List String := []
    let tt := if tags ≠ "" then tt ++ [tags] else tt
    let tt := (TagSlice.elems r.TaggingTagSet).foldl
      (fun tt v => tt ++ [v.Key ++ "=" ++ v.Value]) tt
    strings.Join tt "&"
  else
    tags

/-- Source lines 74-191: `ToInput`, statement by statement. The returned
pointer is never nil, so the result is the struct it points to. -/
def CopyObjectRequest.ToInput (r : CopyObjectRequest) : SDK.CopyObjectInput :=
  let inp : SDK.CopyObjectInput := {}
  let inp : SDK.CopyObjectInput := if r.Bucket ≠ "" then { inp with Bucket := pointers.String r.Bucket } else inp
  let inp : SDK.CopyObjectInput := if r.Key ≠ "" then { inp with Key := pointers.String r.Key } else inp
  let inp : SDK.CopyObjectInput := if r.CopySource ≠ "" then { inp with CopySource := pointers.String r.CopySource } else inp
  let inp : SDK.CopyObjectInput := { inp with ACL := SDK.ObjectCannedACL.mk r.ACL.val }
  let inp : SDK.CopyObjectInput := if r.CacheControl ≠ "" then { inp with CacheControl := pointers.String r.CacheControl } else inp
  let inp : SDK.CopyObjectInput := if r.ContentDisposition ≠ "" then
    { inp with ContentDisposition := pointers.String r.ContentDisposition } else inp
  let inp : SDK.CopyObjectInput := if r.ContentEncoding ≠ "" then
    { inp with ContentEncoding := pointers.String r.ContentEncoding } else inp
  let inp : SDK.CopyObjectInput := if r.ContentLanguage ≠ "" then
    { inp with ContentLanguage := pointers.String r.ContentLanguage } else inp
  let inp : SDK.CopyObjectInput := if r.ContentType ≠ "" then { inp with ContentType := pointers.String r.ContentType } else inp
  let inp : SDK.CopyObjectInput := if r.CopySourceIfMatch ≠ "" then
    { inp with CopySourceIfMatch := pointers.String r.CopySourceIfMatch } else inp
  let inp : SDK.CopyObjectInput := if !r.CopySourceIfModifiedSince.IsZero then
    { inp with CopySourceIfModifiedSince := some r.CopySourceIfModifiedSince } else inp
  let inp : SDK.CopyObjectInput := if r.CopySourceIfNoneMatch ≠ "" then
    { inp with CopySourceIfNoneMatch := pointers.String r.CopySourceIfNoneMatch } else inp
  let inp : SDK.CopyObjectInput := if !r.CopySourceIfUnmodifiedSince.IsZero then
    { inp with CopySourceIfUnmodifiedSince := some r.CopySourceIfUnmodifiedSince } else inp
  let inp : SDK.CopyObjectInput := if r.CopySourceSSECustomerAlgorithm ≠ "" then
    { inp with CopySourceSSECustomerAlgorithm := pointers.String r.CopySourceSSECustomerAlgorithm }
    else inp
  let inp : SDK.CopyObjectInput := if r.CopySourceSSECustomerKey ≠ "" then
    { inp with CopySourceSSECustomerKey := pointers.String r.CopySourceSSECustomerKey } else inp
  let inp : SDK.CopyObjectInput := if r.CopySourceSSECustomerKeyMD5 ≠ "" then
    { inp with CopySourceSSECustomerKeyMD5 := pointers.String r.CopySourceSSECustomerKeyMD5 } else inp
  let inp : SDK.CopyObjectInput := if !r.Expires.IsZero then { inp with Expires := some r.Expires } else inp
  let inp : SDK.CopyObjectInput := if r.GrantFullControl ≠ "" then
    { inp with GrantFullControl := pointers.String r.GrantFullControl } else inp
  let inp : SDK.CopyObjectInput := if r.GrantRead ≠ "" then { inp with GrantRead := pointers.String r.GrantRead } else inp
  let inp : SDK.CopyObjectInput := if r.GrantReadACP ≠ "" then { inp with GrantReadACP := pointers.String r.GrantReadACP } else inp
  let inp : SDK.CopyObjectInput := if r.GrantWriteACP ≠ "" then
    { inp with GrantWriteACP := pointers.String r.GrantWriteACP } else inp
  let inp : SDK.CopyObjectInput := { inp with Metadata := r.Metadata }
  let inp : SDK.CopyObjectInput := { inp with MetadataDirective := SDK.MetadataDirective.mk r.MetadataDirective.val }
  let inp : SDK.CopyObjectInput := { inp with
    ObjectLockLegalHoldStatus := SDK.ObjectLockLegalHoldStatus.mk r.ObjectLockLegalHoldStatus.val }
  let inp : SDK.CopyObjectInput := { inp with ObjectLockMode := SDK.ObjectLockMode.mk r.ObjectLockMode.val }
  let inp : SDK.CopyObjectInput := if !r.ObjectLockRetainUntilDate.IsZero then
    { inp with ObjectLockRetainUntilDate := some r.ObjectLockRetainUntilDate } else inp
  let inp : SDK.CopyObjectInput := { inp with RequestPayer := SDK.RequestPayer.mk r.RequestPayer.val }
  let inp : SDK.CopyObjectInput := if r.SSECustomerAlgorithm ≠ "" then
    { inp with SSECustomerAlgorithm := pointers.String r.SSECustomerAlgorithm } else inp
  let inp : SDK.CopyObjectInput := if r.SSECustomerKey ≠ "" then
    { inp with SSECustomerKey := pointers.String r.SSECustomerKey } else inp
  let inp : SDK.CopyObjectInput := if r.SSECustomerKeyMD5 ≠ "" then
    { inp with SSECustomerKeyMD5 := pointers.String r.SSECustomerKeyMD5 } else inp
  let inp : SDK.CopyObjectInput := if r.SSEKMSEncryptionContext ≠ "" then
    { inp with SSEKMSEncryptionContext := pointers.String r.SSEKMSEncryptionContext } else inp
  let inp : SDK.CopyObjectInput := if r.SSEKMSKeyID ≠ "" then { inp with SSEKMSKeyId := pointers.String r.SSEKMSKeyID } else inp
  let inp : SDK.CopyObjectInput := { inp with ServerSideEncryption := SDK.ServerSideEncryption.mk r.ServerSideEncryption.val }
  let inp : SDK.CopyObjectInput := { inp with StorageClass := SDK.StorageClass.mk r.StorageClass.val }
  let tags := r.tags
  let inp : SDK.CopyObjectInput := if tags ≠ "" then { inp with Tagging := pointers.String tags } else inp
  let inp : SDK.CopyObjectInput := { inp with TaggingDirective := SDK.TaggingDirective.mk r.TaggingDirective.val }
  let inp : SDK.CopyObjectInput := if r.WebsiteRedirectLocation ≠ "" then
    { inp with WebsiteRedirectLocation := pointers.String r.WebsiteRedirectLocation } else inp
  inp

/-! ## Result -/

/-- SDK `CopyObjectResult`, the nested part of the response. -/
structure SDK.CopyObjectResult where
  ETag : Option String := none
  LastModified : Option Time := none
deriving DecidableEq, Repr, Inhabited

/-- SDK `CopyObjectOutput`, with the fields `NewCopyObjectResult` reads. -/
structure SDK.CopyObjectOutput where
  CopyObjectResult : Option SDK.CopyObjectResult := none
  CopySourceVersionId : Option String := none
  Expiration : Option String := none
  RequestCharged : SDK.RequestCharged := {}
  SSECustomerAlgorithm : Option String := none
  SSECustomerKeyMD5 : Option String := none
  SSEKMSEncryptionContext : Option String := none
  SSEKMSKeyId : Option String := none
  ServerSideEncryption : SDK.ServerSideEncryption := {}
  VersionId : Option String := none
deriving DecidableEq, Repr, Inhabited

/-- SDK `CopyObjectResponse` (the SDK before version 1.0): it embeds a
pointer to the `CopyObjectOutput`, whose fields are promoted, so
`output.VersionId` reads through that pointer. A response that is not nil
can still have a nil embedded output. -/
structure SDK.CopyObjectResponse where
  CopyObjectOutput : Option SDK.CopyObjectOutput := none
deriving DecidableEq, Repr, Inhabited

/-- Source lines 194-207: `CopyObjectResult`. Every default is the Go zero
value of the field. -/
structure CopyObjectResult where
  CopySourceVersionID : String := ""
  Expiration : String := ""
  RequestCharged : RequestCharged := {}
  SSECustomerAlgorithm : String := ""
  SSECustomerKeyMD5 : String := ""
  SSEKMSEncryptionContext : String := ""
  SSEKMSKeyID : String := ""
  ServerSideEncryption : ServerSideEncryption := {}
  VersionID : String := ""
  CopyResultETag : String := ""
  CopyResultLastModified : Time := {}
deriving DecidableEq, Repr, Inhabited

/-- Source lines 209-253: `NewCopyObjectResult`, statement by statement. The
argument and the result are pointers; a field `*p` is read only under the
guard `p != nil`. The only guard on the response is `output == nil` (line
211): the first promoted field read (line 215) goes through the embedded
output pointer and panics when that pointer is nil. -/
def NewCopyObjectResult (output : Option SDK.CopyObjectResponse) :
    Run (Option CopyObjectResult) :=
  let r : CopyObjectResult := {}
  match output with
  | none => Run.returns (some r)
  | some response =>
    match response.CopyObjectOutput with
    | none => Run.panics
    | some output =>
      let r : CopyObjectResult := if h : output.CopySourceVersionId.isSome then
        { r with CopySourceVersionID := output.CopySourceVersionId.get h } else r
      let r : CopyObjectResult := if h : output.Expiration.isSome then
        { r with Expiration := output.Expiration.get h } else r
      let r : CopyObjectResult := if output.RequestCharged.val ≠ "" then
        { r with RequestCharged := RequestCharged.mk output.RequestCharged.val } else r
      let r : CopyObjectResult := if h : output.SSECustomerAlgorithm.isSome then
        { r with SSECustomerAlgorithm := output.SSECustomerAlgorithm.get h } else r
      let r : CopyObjectResult := if h : output.SSECustomerKeyMD5.isSome then
        { r with SSECustomerKeyMD5 := output.SSECustomerKeyMD5.get h } else r
      let r : CopyObjectResult := if h : output.SSEKMSEncryptionContext.isSome then
        { r with SSEKMSEncryptionContext := output.SSEKMSEncryptionContext.get h } else r
      let r : CopyObjectResult := if h : output.SSEKMSKeyId.isSome then
        { r with SSEKMSKeyID := output.SSEKMSKeyId.get h } else r
      let r : CopyObjectResult := if output.ServerSideEncryption.val ≠ "" then
        { r with ServerSideEncryption := ServerSideEncryption.mk output.ServerSideEncryption.val }
        else r
      let r : CopyObjectResult := if h : output.VersionId.isSome then
        { r with VersionID := output.VersionId.get h } else r
      let r : CopyObjectResult := if h : output.CopyObjectResult.isSome then
        let v : SDK.CopyObjectResult := output.CopyObjectResult.get h
        let r : CopyObjectResult := if h1 : v.ETag.isSome then
          { r with CopyResultETag := v.ETag.get h1 } else r
        let r : CopyObjectResult := if h2 : v.LastModified.isSome then
          { r with CopyResultLastModified := v.LastModified.get h2 } else r
        r
        else r
      Run.returns (some r)

/-! ## Operation -/

/-- Go `error` value that is not nil; `Error` is what its `Error()` method
returns. The interface type `error` is `Option GoError`. -/
structure GoError where
  Error : String
deriving DecidableEq, Repr, Inhabited

/-- Record `errors.ErrorData` of the package `errors`, with the two fields
`CopyObject` fills. -/
structure errors.ErrorData where
  Err : Option GoError := none
  AWSOperation : String := ""
deriving DecidableEq, Repr, Inhabited

/-- Go `context.Context`; the adapter only hands it to the transport. -/
structure Context where
  id : Nat := 0
deriving DecidableEq, Repr, Inhabited

/-- The collaborators of the service value `svc *S3` that `CopyObject` uses:
the transport call `RawCopyObject`, which returns a response pointer and an
error, and the error wrapper `errWrap`. Neither is in the source file. -/
structure S3 where
  RawCopyObject : Context → SDK.CopyObjectInput → Option SDK.CopyObjectResponse × Option GoError
  errWrap : errors.ErrorData → Option GoError

/-- What one run has done to the outside: the inputs handed to the
transport, and the format strings handed to the logger `svc.Errorf`, both in
order. -/
structure Effects where
  calls : List SDK.CopyObjectInput := []
  logs : List String := []
deriving DecidableEq, Repr, Inhabited

/-- How a call of `CopyObject` ends: it returns a result pointer and an
error, or it panics (a method call on a nil `error`, or a panic of
`NewCopyObjectResult`). -/
inductive Outcome where
  | returned (result : Option CopyObjectResult) (err : Option GoError)
  | panicked
deriving DecidableEq, Repr, Inhabited

/-- Source lines 15-26: `CopyObject`. -/
def S3.CopyObject (svc : S3) (ctx : Context) (r : CopyObjectRequest) (w : Effects) :
    Effects × Outcome :=
  let inp := r.ToInput
  let w : Effects := { w with calls := w.calls ++ [inp] }
  match svc.RawCopyObject ctx inp with
  | (_, some err) =>
    match svc.errWrap { Err := some err, AWSOperation := "CopyObject" } with
    | none => (w, Outcome.panicked)
    | some err =>
      let w : Effects := { w with logs := w.logs ++ [err.Error] }
      (w, Outcome.returned none (some err))
  | (out, none) =>
    match NewCopyObjectResult out with
    | Run.panics => (w, Outcome.panicked)
    | Run.returns result => (w, Outcome.returned result none)

/-- Go `strings.Contains`: `substr` occurs in `s` as a contiguous run. -/
def strings.Contains (s substr : String) : Prop :=
  List.IsInfix substr.data s.data

instance strings.decidableContains (s substr : String) : Decidable (strings.Contains s substr) :=
  inferInstanceAs (Decidable (List.IsInfix substr.data s.data))

/-- Modelled from the spec: the error wrapper `svc.errWrap` is not in the
source file; section 6 describes it as the collaborator "that annotates an
error with the operation name". A wrapper meets that description when, for
every record, it returns an error that is not nil and whose message contains
the record's operation name. -/
def AnnotatesOperation (errWrap : errors.ErrorData → Option GoError) : Prop :=
  ∀ d : errors.ErrorData, ∃ err, errWrap d = some err ∧ strings.Contains err.Error d.AWSOperation

/-! ## The specification's wording -/

/-- The rule of an optional string field: the input field is absent exactly
when the request field is the empty string, and a present input field holds
the request field's value. -/
def OmittedOrRoundTrips (req : String) (fld : Option String) : Prop :=
  (fld = none ↔ req = "") ∧ ∀ v, fld = some v → v = req

/-- The rule of a time field: the input field is absent exactly when the
request's time is the zero time, and a present input field holds the
request's time. -/
def TimeOmittedOrRoundTrips (req : Time) (fld : Option Time) : Prop :=
  (fld = none ↔ req.IsZero = true) ∧ ∀ v, fld = some v → v = req

/-- The segments of the tagging composition: the raw tag string when it is
not empty, then `key=value` for each entry of the tag set, in order. -/
def tagSegments (r : CopyObjectRequest) : List String :=
  (if r.Tagging = "" then [] else [r.Tagging]) ++
    (TagSlice.elems r.TaggingTagSet).map (fun t => t.Key ++ "=" ++ t.Value)

/-- The composed tag string: the segments joined with `&`. -/
def composedTagging (r : CopyObjectRequest) : String :=
  String.intercalate "&" (tagSegments r)

/-- The pointed-to string of a present field, the empty string for an absent
one. -/
def valueOrEmpty (p : Option String) : String :=
  match p with
  | some v => v
  | none => ""

/-- The pointed-to time of a present field, the zero time for an absent
one. -/
def timeOrZero (p : Option Time) : Time :=
  match p with
  | some t => t
  | none => { sec := 0, nsec := 0, loc := 0 }

/-- A present string field that is not the sentinel: the pointed-to string
is not empty. -/
def PresentNonEmpty (fld : Option String) : Prop :=
  ∀ v, fld = some v → v ≠ ""

/-- A present time field that is not the sentinel: the pointed-to time is
not the zero time. -/
def PresentNonZero (fld : Option Time) : Prop :=
  ∀ t, fld = some t → t.IsZero = false

/-- A request on which `ToInput` loses nothing: the tag set is the nil
slice, and a time field whose instant is the zero time is the zero value of
`time.Time` (no location attached). -/
def CopyObjectRequest.Canonical (r : CopyObjectRequest) : Prop :=
  r.TaggingTagSet = none ∧
  (r.CopySourceIfModifiedSince.IsZero = true →
    r.CopySourceIfModifiedSince = { sec := 0, nsec := 0, loc := 0 }) ∧
  (r.CopySourceIfUnmodifiedSince.IsZero = true →
    r.CopySourceIfUnmodifiedSince = { sec := 0, nsec := 0, loc := 0 }) ∧
  (r.Expires.IsZero = true → r.Expires = { sec := 0, nsec := 0, loc := 0 }) ∧
  (r.ObjectLockRetainUntilDate.IsZero = true →
    r.ObjectLockRetainUntilDate = { sec := 0, nsec := 0, loc := 0 })

/-- The entity tag an output carries in effect: the nested ETag when the
nested copy result and the ETag are present, the empty string otherwise. -/
def effectiveETag (o : SDK.CopyObjectOutput) : String :=
  match o.CopyObjectResult with
  | some v => valueOrEmpty v.ETag
  | none => ""

/-- The last-modified time an output carries in effect: the nested
LastModified when the nested copy result and the time are present, the zero
time otherwise. -/
def effectiveLastModified (o : SDK.CopyObjectOutput) : Time :=
  match o.CopyObjectResult with
  | some v => timeOrZero v.LastModified
  | none => { sec := 0, nsec := 0, loc := 0 }

/-- Two outputs carry the same values in effect: each field the result
adapter reads has the same pointed-to value, an absent field counting as its
zero value. -/
def SameEffectiveValues (o1 o2 : SDK.CopyObjectOutput) : Prop :=
  valueOrEmpty o1.CopySourceVersionId = valueOrEmpty o2.CopySourceVersionId ∧
  valueOrEmpty o1.Expiration = valueOrEmpty o2.Expiration ∧
  o1.RequestCharged.val = o2.RequestCharged.val ∧
  valueOrEmpty o1.SSECustomerAlgorithm = valueOrEmpty o2.SSECustomerAlgorithm ∧
  valueOrEmpty o1.SSECustomerKeyMD5 = valueOrEmpty o2.SSECustomerKeyMD5 ∧
  valueOrEmpty o1.SSEKMSEncryptionContext = valueOrEmpty o2.SSEKMSEncryptionContext ∧
  valueOrEmpty o1.SSEKMSKeyId = valueOrEmpty o2.SSEKMSKeyId ∧
  o1.ServerSideEncryption.val = o2.ServerSideEncryption.val ∧
  valueOrEmpty o1.VersionId = valueOrEmpty o2.VersionId ∧
  effectiveETag o1 = effectiveETag o2 ∧
  effectiveLastModified o1 = effectiveLastModified o2

/-- The Tagging value `ToInput` produces from the raw tag string `t` and the
tag set holding the entries `L`, the empty string standing for an absent
Tagging. -/
def compose (t : String) (L : List Tag) : String :=
  (CopyObjectRequest.ToInput { Tagging := t, TaggingTagSet := some L }).Tagging.getD ""

/-! ## Sample collaborators -/

/-- A wrapper that puts the operation name in front of the message of the
wrapped error. -/
def sampleErrWrap (d : errors.ErrorData) : Option GoError :=
  some { Error := d.AWSOperation ++ ": " ++ valueOrEmpty (d.Err.map GoError.Error) }

/-- A service whose transport call always fails with the error `boom`. -/
def failingService : S3 where
  RawCopyObject := fun _ _ => (none, some { Error := "boom" })
  errWrap := sampleErrWrap

/-- A service whose transport call always succeeds with a nil response. -/
def emptyService : S3 where
  RawCopyObject := fun _ _ => (none, none)
  errWrap := sampleErrWrap

/-- A service whose transport call always succeeds with a response that
carries a version id. -/
def versionedService : S3 where
  RawCopyObject := fun _ _ => (some { CopyObjectOutput := some { VersionId := some "v1" } }, none)
  errWrap := sampleErrWrap

/-- A service whose transport call always succeeds with a response that is
not nil and has a nil embedded output. -/
def hollowService : S3 where
  RawCopyObject := fun _ _ => (some { CopyObjectOutput := none }, none)
  errWrap := sampleErrWrap

/-! ## What `ToInput` leaves in each field of the input -/

theorem ToInput_Bucket (r : CopyObjectRequest) :
    r.ToInput.Bucket = if r.Bucket ≠ "" then some r.Bucket else none := by
  simp only [CopyObjectRequest.ToInput, apply_ite SDK.CopyObjectInput.Bucket, ite_self,
    pointers.String]

theorem ToInput_Key (r : CopyObjectRequest) :
    r.ToInput.Key = if r.Key ≠ "" then some r.Key else none := by
  simp only [CopyObjectRequest.ToInput, apply_ite SDK.CopyObjectInput.Key, ite_self,
    pointers.String]

theorem ToInput_CopySource (r : CopyObjectRequest) :
    r.ToInput.CopySource = if r.CopySource ≠ "" then some r.CopySource else none := by
  simp only [CopyObjectRequest.ToInput, apply_ite SDK.CopyObjectInput.CopySource, ite_self,
    pointers.String]

theorem ToInput_CacheControl (r : CopyObjectRequest) :
    r.ToInput.CacheControl = if r.CacheControl ≠ "" then some r.CacheControl else none := by
  simp only [CopyObjectRequest.ToInput, apply_ite SDK.CopyObjectInput.CacheControl, ite_self,
    pointers.String]

theorem ToInput_ContentDisposition (r : CopyObjectRequest) :
    r.ToInput.ContentDisposition = if r.ContentDisposition ≠ "" then some r.ContentDisposition else none := by
  simp only [CopyObjectRequest.ToInput, apply_ite SDK.CopyObjectInput.ContentDisposition, ite_self,
    pointers.String]

theorem ToInput_ContentEncoding (r : CopyObjectRequest) :
    r.ToInput.ContentEncoding = if r.ContentEncoding ≠ "" then some r.ContentEncoding else none := by
  simp only [CopyObjectRequest.ToInput, apply_ite SDK.CopyObjectInput.ContentEncoding, ite_self,
    pointers.String]

theorem ToInput_ContentLanguage (r : CopyObjectRequest) :
    r.ToInput.ContentLanguage = if r.ContentLanguage ≠ "" then some r.ContentLanguage else none := by
  simp only [CopyObjectRequest.ToInput, apply_ite SDK.CopyObjectInput.ContentLanguage, ite_self,
    pointers.String]

theorem ToInput_ContentType (r : CopyObjectRequest) :
    r.ToInput.ContentType = if r.ContentType ≠ "" then some r.ContentType else none := by
  simp only [CopyObjectRequest.ToInput, apply_ite SDK.CopyObjectInput.ContentType, ite_self,
    pointers.String]

theorem ToInput_CopySourceIfMatch (r : CopyObjectRequest) :
    r.ToInput.CopySourceIfMatch = if r.CopySourceIfMatch ≠ "" then some r.CopySourceIfMatch else none := by
  simp only [CopyObjectRequest.ToInput, apply_ite SDK.CopyObjectInput.CopySourceIfMatch, ite_self,
    pointers.String]

theorem ToInput_CopySourceIfNoneMatch (r : CopyObjectRequest) :
    r.ToInput.CopySourceIfNoneMatch = if r.CopySourceIfNoneMatch ≠ "" then some r.CopySourceIfNoneMatch else none := by
  simp only [CopyObjectRequest.ToInput, apply_ite SDK.CopyObjectInput.CopySourceIfNoneMatch, ite_self,
    pointers.String]

theorem ToInput_CopySourceSSECustomerAlgorithm (r : CopyObjectRequest) :
    r.ToInput.CopySourceSSECustomerAlgorithm = if r.CopySourceSSECustomerAlgorithm ≠ "" then some r.CopySourceSSECustomerAlgorithm else none := by
  simp only [CopyObjectRequest.ToInput, apply_ite SDK.CopyObjectInput.CopySourceSSECustomerAlgorithm, ite_self,
    pointers.String]

theorem ToInput_CopySourceSSECustomerKey (r : CopyObjectRequest) :
    r.ToInput.CopySourceSSECustomerKey = if r.CopySourceSSECustomerKey ≠ "" then some r.CopySourceSSECustomerKey else none := by
  simp only [CopyObjectRequest.ToInput, apply_ite SDK.CopyObjectInput.CopySourceSSECustomerKey, ite_self,
    pointers.String]

theorem ToInput_CopySourceSSECustomerKeyMD5 (r : CopyObjectRequest) :
    r.ToInput.CopySourceSSECustomerKeyMD5 = if r.CopySourceSSECustomerKeyMD5 ≠ "" then some r.CopySourceSSECustomerKeyMD5 else none := by
  simp only [CopyObjectRequest.ToInput, apply_ite SDK.CopyObjectInput.CopySourceSSECustomerKeyMD5, ite_self,
    pointers.String]

theorem ToInput_GrantFullControl (r : CopyObjectRequest) :
    r.ToInput.GrantFullControl = if r.GrantFullControl ≠ "" then some r.GrantFullControl else none := by
  simp only [CopyObjectRequest.ToInput, apply_ite SDK.CopyObjectInput.GrantFullControl, ite_self,
    pointers.String]

theorem ToInput_GrantRead (r : CopyObjectRequest) :
    r.ToInput.GrantRead = if r.GrantRead ≠ "" then some r.GrantRead else none := by
  simp only [CopyObjectRequest.ToInput, apply_ite SDK.CopyObjectInput.GrantRead, ite_self,
    pointers.String]

theorem ToInput_GrantReadACP (r : CopyObjectRequest) :
    r.ToInput.GrantReadACP = if r.GrantReadACP ≠ "" then some r.GrantReadACP else none := by
  simp only [CopyObjectRequest.ToInput, apply_ite SDK.CopyObjectInput.GrantReadACP, ite_self,
    pointers.String]

theorem ToInput_GrantWriteACP (r : CopyObjectRequest) :
    r.ToInput.GrantWriteACP = if r.GrantWriteACP ≠ "" then some r.GrantWriteACP else none := by
  simp only [CopyObjectRequest.ToInput, apply_ite SDK.CopyObjectInput.GrantWriteACP, ite_self,
    pointers.String]

theorem ToInput_SSECustomerAlgorithm (r : CopyObjectRequest) :
    r.ToInput.SSECustomerAlgorithm = if r.SSECustomerAlgorithm ≠ "" then some r.SSECustomerAlgorithm else none := by
  simp only [CopyObjectRequest.ToInput, apply_ite SDK.CopyObjectInput.SSECustomerAlgorithm, ite_self,
    pointers.String]

theorem ToInput_SSECustomerKey (r : CopyObjectRequest) :
    r.ToInput.SSECustomerKey = if r.SSECustomerKey ≠ "" then some r.SSECustomerKey else none := by
  simp only [CopyObjectRequest.ToInput, apply_ite SDK.CopyObjectInput.SSECustomerKey, ite_self,
    pointers.String]

theorem ToInput_SSECustomerKeyMD5 (r : CopyObjectRequest) :
    r.ToInput.SSECustomerKeyMD5 = if r.SSECustomerKeyMD5 ≠ "" then some r.SSECustomerKeyMD5 else none := by
  simp only [CopyObjectRequest.ToInput, apply_ite SDK.CopyObjectInput.SSECustomerKeyMD5, ite_self,
    pointers.String]

theorem ToInput_SSEKMSEncryptionContext (r : CopyObjectRequest) :
    r.ToInput.SSEKMSEncryptionContext = if r.SSEKMSEncryptionContext ≠ "" then some r.SSEKMSEncryptionContext else none := by
  simp only [CopyObjectRequest.ToInput, apply_ite SDK.CopyObjectInput.SSEKMSEncryptionContext, ite_self,
    pointers.String]

theorem ToInput_SSEKMSKeyID (r : CopyObjectRequest) :
    r.ToInput.SSEKMSKeyId = if r.SSEKMSKeyID ≠ "" then some r.SSEKMSKeyID else none := by
  simp only [CopyObjectRequest.ToInput, apply_ite SDK.CopyObjectInput.SSEKMSKeyId, ite_self,
    pointers.String]

theorem ToInput_WebsiteRedirectLocation (r : CopyObjectRequest) :
    r.ToInput.WebsiteRedirectLocation = if r.WebsiteRedirectLocation ≠ "" then some r.WebsiteRedirectLocation else none := by
  simp only [CopyObjectRequest.ToInput, apply_ite SDK.CopyObjectInput.WebsiteRedirectLocation, ite_self,
    pointers.String]

theorem ToInput_CopySourceIfModifiedSince (r : CopyObjectRequest) :
    r.ToInput.CopySourceIfModifiedSince = if (!r.CopySourceIfModifiedSince.IsZero) = true then some r.CopySourceIfModifiedSince else none := by
  simp only [CopyObjectRequest.ToInput, apply_ite SDK.CopyObjectInput.CopySourceIfModifiedSince, ite_self,
    pointers.String]

theorem ToInput_CopySourceIfUnmodifiedSince (r : CopyObjectRequest) :
    r.ToInput.CopySourceIfUnmodifiedSince = if (!r.CopySourceIfUnmodifiedSince.IsZero) = true then some r.CopySourceIfUnmodifiedSince else none := by
  simp only [CopyObjectRequest.ToInput, apply_ite SDK.CopyObjectInput.CopySourceIfUnmodifiedSince, ite_self,
    pointers.String]

theorem ToInput_Expires (r : CopyObjectRequest) :
    r.ToInput.Expires = if (!r.Expires.IsZero) = true then some r.Expires else none := by
  simp only [CopyObjectRequest.ToInput, apply_ite SDK.CopyObjectInput.Expires, ite_self,
    pointers.String]

theorem ToInput_ObjectLockRetainUntilDate (r : CopyObjectRequest) :
    r.ToInput.ObjectLockRetainUntilDate = if (!r.ObjectLockRetainUntilDate.IsZero) = true then some r.ObjectLockRetainUntilDate else none := by
  simp only [CopyObjectRequest.ToInput, apply_ite SDK.CopyObjectInput.ObjectLockRetainUntilDate, ite_self,
    pointers.String]

theorem ToInput_ACL (r : CopyObjectRequest) :
    r.ToInput.ACL = SDK.ObjectCannedACL.mk r.ACL.val := by
  simp only [CopyObjectRequest.ToInput, apply_ite SDK.CopyObjectInput.ACL, ite_self,
    pointers.String]

theorem ToInput_MetadataDirective (r : CopyObjectRequest) :
    r.ToInput.MetadataDirective = SDK.MetadataDirective.mk r.MetadataDirective.val := by
  simp only [CopyObjectRequest.ToInput, apply_ite SDK.CopyObjectInput.MetadataDirective, ite_self,
    pointers.String]

theorem ToInput_ObjectLockLegalHoldStatus (r : CopyObjectRequest) :
    r.ToInput.ObjectLockLegalHoldStatus = SDK.ObjectLockLegalHoldStatus.mk r.ObjectLockLegalHoldStatus.val := by
  simp only [CopyObjectRequest.ToInput, apply_ite SDK.CopyObjectInput.ObjectLockLegalHoldStatus, ite_self,
    pointers.String]

theorem ToInput_ObjectLockMode (r : CopyObjectRequest) :
    r.ToInput.ObjectLockMode = SDK.ObjectLockMode.mk r.ObjectLockMode.val := by
  simp only [CopyObjectRequest.ToInput, apply_ite SDK.CopyObjectInput.ObjectLockMode, ite_self,
    pointers.String]

theorem ToInput_RequestPayer (r : CopyObjectRequest) :
    r.ToInput.RequestPayer = SDK.RequestPayer.mk r.RequestPayer.val := by
  simp only [CopyObjectRequest.ToInput, apply_ite SDK.CopyObjectInput.RequestPayer, ite_self,
    pointers.String]

theorem ToInput_ServerSideEncryption (r : CopyObjectRequest) :
    r.ToInput.ServerSideEncryption = SDK.ServerSideEncryption.mk r.ServerSideEncryption.val := by
  simp only [CopyObjectRequest.ToInput, apply_ite SDK.CopyObjectInput.ServerSideEncryption, ite_self,
    pointers.String]

theorem ToInput_StorageClass (r : CopyObjectRequest) :
    r.ToInput.StorageClass = SDK.StorageClass.mk r.StorageClass.val := by
  simp only [CopyObjectRequest.ToInput, apply_ite SDK.CopyObjectInput.StorageClass, ite_self,
    pointers.String]

theorem ToInput_TaggingDirective (r : CopyObjectRequest) :
    r.ToInput.TaggingDirective = SDK.TaggingDirective.mk r.TaggingDirective.val := by
  simp only [CopyObjectRequest.ToInput, apply_ite SDK.CopyObjectInput.TaggingDirective, ite_self,
    pointers.String]

theorem ToInput_Metadata (r : CopyObjectRequest) :
    r.ToInput.Metadata = r.Metadata := by
  simp only [CopyObjectRequest.ToInput, apply_ite SDK.CopyObjectInput.Metadata, ite_self,
    pointers.String]

theorem ToInput_Tagging (r : CopyObjectRequest) :
    r.ToInput.Tagging = if r.tags ≠ "" then some r.tags else none := by
  simp only [CopyObjectRequest.ToInput, apply_ite SDK.CopyObjectInput.Tagging, ite_self,
    pointers.String]

/-! ## Tagging composition -/

theorem foldl_append_singleton {α β : Type} (f : α → β) (l : List α) (init : List β) :
    l.foldl (fun tt v => tt ++ [f v]) init = init ++ l.map f := by
  induction l generalizing init with
  | nil => simp
  | cons a as ih => simp [ih]

theorem foldl_sep_eq_go (sep : String) (rest : List String) (acc : String) :
    rest.foldl (fun b s => b ++ sep ++ s) acc = String.intercalate.go acc sep rest := by
  induction rest generalizing acc with
  | nil => rfl
  | cons a as ih => simp only [List.foldl_cons, String.intercalate.go]; exact ih _

theorem Join_eq_intercalate (elems : List String) (sep : String) :
    strings.Join elems sep = String.intercalate sep elems := by
  match elems with
  | [] => rfl
  | [e] => rfl
  | e :: f :: rest => simp only [strings.Join, String.intercalate, foldl_sep_eq_go]

theorem len_eq_length_elems (s : TagSlice) : TagSlice.len s = (TagSlice.elems s).length := by
  cases s <;> rfl

theorem len_eq_zero_iff (s : TagSlice) : TagSlice.len s = 0 ↔ TagSlice.elems s = [] := by
  rw [len_eq_length_elems, List.length_eq_zero]

theorem tags_eq_composedTagging (r : CopyObjectRequest) : r.tags = composedTagging r := by
  unfold CopyObjectRequest.tags composedTagging tagSegments
  by_cases hset : TagSlice.elems r.TaggingTagSet = []
  · have hlen : TagSlice.len r.TaggingTagSet = 0 := (len_eq_zero_iff _).mpr hset
    by_cases ht : r.Tagging = ""
    · simp [hlen, hset, ht, String.intercalate]
    · simp [hlen, hset, ht, String.intercalate, String.intercalate.go]
  · have hlen : TagSlice.len r.TaggingTagSet ≠ 0 := fun h => hset ((len_eq_zero_iff _).mp h)
    by_cases ht : r.Tagging = ""
    · simp [hlen, ht, foldl_append_singleton, Join_eq_intercalate]
    · simp [hlen, ht, foldl_append_singleton, Join_eq_intercalate]

/-- C1: the Tagging of the input is the tagging composition. With `segs` the
raw tag string (when not empty) followed by `Key=Value` for each entry of the
tag set in order, and `s` the segments joined with `&`, the input's Tagging
is absent when `s` is empty and is present with value `s` otherwise; the
three sample compositions of the specification come out as stated, the
empty tag set as the empty slice and as the nil slice. -/
theorem ToInput_tagging_composition :
    (∀ r : CopyObjectRequest,
      r.ToInput.Tagging = if composedTagging r = "" then none else some (composedTagging r)) ∧
    (CopyObjectRequest.ToInput
      { Tagging := "a=1", TaggingTagSet := some [⟨"b", "2"⟩, ⟨"c", "3"⟩] }).Tagging
        = some "a=1&b=2&c=3" ∧
    (CopyObjectRequest.ToInput { Tagging := "", TaggingTagSet := some [] }).Tagging = none ∧
    (CopyObjectRequest.ToInput { Tagging := "", TaggingTagSet := none }).Tagging = none ∧
    (CopyObjectRequest.ToInput { Tagging := "", TaggingTagSet := some [⟨"x", "y"⟩] }).Tagging
      = some "x=y" := by
  refine ⟨fun r => ?_, by decide, by decide, by decide, by decide⟩
  rw [ToInput_Tagging, tags_eq_composedTagging]
  by_cases h : composedTagging r = "" <;> simp [h]

/-! ## Optional string, time and enum fields -/

theorem omittedOrRoundTrips_ite (s : String) :
    OmittedOrRoundTrips s (if s ≠ "" then some s else none) := by
  by_cases h : s = "" <;> simp [OmittedOrRoundTrips, h]

theorem timeOmittedOrRoundTrips_ite (t : Time) :
    TimeOmittedOrRoundTrips t (if (!t.IsZero) = true then some t else none) := by
  cases h : t.IsZero <;> simp [TimeOmittedOrRoundTrips, h]

/-- C2: each of the 23 plain string fields other than Tagging is absent in
the input exactly when the request field is the empty string, and when
present it holds the request field's value. -/
theorem ToInput_string_fields (r : CopyObjectRequest) :
    OmittedOrRoundTrips r.Bucket r.ToInput.Bucket ∧
    OmittedOrRoundTrips r.Key r.ToInput.Key ∧
    OmittedOrRoundTrips r.CopySource r.ToInput.CopySource ∧
    OmittedOrRoundTrips r.CacheControl r.ToInput.CacheControl ∧
    OmittedOrRoundTrips r.ContentDisposition r.ToInput.ContentDisposition ∧
    OmittedOrRoundTrips r.ContentEncoding r.ToInput.ContentEncoding ∧
    OmittedOrRoundTrips r.ContentLanguage r.ToInput.ContentLanguage ∧
    OmittedOrRoundTrips r.ContentType r.ToInput.ContentType ∧
    OmittedOrRoundTrips r.CopySourceIfMatch r.ToInput.CopySourceIfMatch ∧
    OmittedOrRoundTrips r.CopySourceIfNoneMatch r.ToInput.CopySourceIfNoneMatch ∧
    OmittedOrRoundTrips r.CopySourceSSECustomerAlgorithm r.ToInput.CopySourceSSECustomerAlgorithm ∧
    OmittedOrRoundTrips r.CopySourceSSECustomerKey r.ToInput.CopySourceSSECustomerKey ∧
    OmittedOrRoundTrips r.CopySourceSSECustomerKeyMD5 r.ToInput.CopySourceSSECustomerKeyMD5 ∧
    OmittedOrRoundTrips r.GrantFullControl r.ToInput.GrantFullControl ∧
    OmittedOrRoundTrips r.GrantRead r.ToInput.GrantRead ∧
    OmittedOrRoundTrips r.GrantReadACP r.ToInput.GrantReadACP ∧
    OmittedOrRoundTrips r.GrantWriteACP r.ToInput.GrantWriteACP ∧
    OmittedOrRoundTrips r.SSECustomerAlgorithm r.ToInput.SSECustomerAlgorithm ∧
    OmittedOrRoundTrips r.SSECustomerKey r.ToInput.SSECustomerKey ∧
    OmittedOrRoundTrips r.SSECustomerKeyMD5 r.ToInput.SSECustomerKeyMD5 ∧
    OmittedOrRoundTrips r.SSEKMSEncryptionContext r.ToInput.SSEKMSEncryptionContext ∧
    OmittedOrRoundTrips r.SSEKMSKeyID r.ToInput.SSEKMSKeyId ∧
    OmittedOrRoundTrips r.WebsiteRedirectLocation r.ToInput.WebsiteRedirectLocation := by
  rw [ToInput_Bucket, ToInput_Key, ToInput_CopySource, ToInput_CacheControl,
    ToInput_ContentDisposition, ToInput_ContentEncoding, ToInput_ContentLanguage,
    ToInput_ContentType, ToInput_CopySourceIfMatch, ToInput_CopySourceIfNoneMatch,
    ToInput_CopySourceSSECustomerAlgorithm, ToInput_CopySourceSSECustomerKey,
    ToInput_CopySourceSSECustomerKeyMD5, ToInput_GrantFullControl, ToInput_GrantRead,
    ToInput_GrantReadACP, ToInput_GrantWriteACP, ToInput_SSECustomerAlgorithm,
    ToInput_SSECustomerKey, ToInput_SSECustomerKeyMD5, ToInput_SSEKMSEncryptionContext,
    ToInput_SSEKMSKeyID, ToInput_WebsiteRedirectLocation]
  refine ⟨?_, ?_, ?_, ?_, ?_, ?_, ?_, ?_, ?_, ?_, ?_, ?_, ?_, ?_, ?_, ?_, ?_, ?_, ?_, ?_, ?_,
    ?_, ?_⟩ <;> exact omittedOrRoundTrips_ite _

/-- C3, refuted as stated: with Tagging empty and the tag set `[(x, y)]` the
input's Tagging is present (`x=y`), and with Tagging `a=1` and the tag set
`[(b, 2)]` the input's Tagging is `a=1&b=2`, not `a=1`. -/
theorem ToInput_tagging_not_plain_rule :
    ((({ Tagging := "", TaggingTagSet := some [⟨"x", "y"⟩] } : CopyObjectRequest).Tagging = "") ∧
      (CopyObjectRequest.ToInput { Tagging := "", TaggingTagSet := some [⟨"x", "y"⟩] }).Tagging
        = some "x=y") ∧
    ((({ Tagging := "a=1", TaggingTagSet := some [⟨"b", "2"⟩] } : CopyObjectRequest).Tagging
        ≠ "") ∧
      (CopyObjectRequest.ToInput { Tagging := "a=1", TaggingTagSet := some [⟨"b", "2"⟩] }).Tagging
        = some "a=1&b=2") ∧
    ¬ ∀ r : CopyObjectRequest,
      (r.Tagging = "" → r.ToInput.Tagging = none) ∧
      (r.Tagging ≠ "" → r.ToInput.Tagging = some r.Tagging) := by
  refine ⟨by decide, by decide, fun h => ?_⟩
  have h1 := (h { Tagging := "", TaggingTagSet := some [⟨"x", "y"⟩] }).1 rfl
  revert h1
  decide

/-- C3, amended: for a request whose tag set is empty (the nil slice or a
slice of length zero), Tagging follows the rule of the other optional string
fields: an empty Tagging gives an absent input field, a non-empty Tagging
gives a present input field with that value. -/
theorem ToInput_tagging_plain_rule_without_tag_set (r : CopyObjectRequest)
    (hset : TagSlice.elems r.TaggingTagSet = []) :
    (r.Tagging = "" → r.ToInput.Tagging = none) ∧
    (r.Tagging ≠ "" → r.ToInput.Tagging = some r.Tagging) := by
  have htags : r.tags = r.Tagging := by
    simp [CopyObjectRequest.tags, (len_eq_zero_iff _).mpr hset]
  rw [ToInput_Tagging, htags]
  constructor
  · intro h
    simp [h]
  · intro h
    simp [h]

theorem ToInput_tagging_plain_rule_without_tag_set_witness :
    (TagSlice.elems ({ Tagging := "a=1" } : CopyObjectRequest).TaggingTagSet = [] ∧
      ({ Tagging := "a=1" } : CopyObjectRequest).Tagging ≠ "" ∧
      (CopyObjectRequest.ToInput { Tagging := "a=1" }).Tagging = some "a=1") ∧
    (TagSlice.elems ({ } : CopyObjectRequest).TaggingTagSet = [] ∧
      ({ } : CopyObjectRequest).Tagging = "" ∧
      (CopyObjectRequest.ToInput { }).Tagging = none) ∧
    (TagSlice.elems ({ Tagging := "a=1", TaggingTagSet := some [] } : CopyObjectRequest).TaggingTagSet
        = [] ∧
      (CopyObjectRequest.ToInput { Tagging := "a=1", TaggingTagSet := some [] }).Tagging
        = some "a=1") :=
  ⟨⟨rfl, by decide,
      (ToInput_tagging_plain_rule_without_tag_set { Tagging := "a=1" } rfl).2 (by decide)⟩,
    ⟨rfl, rfl, (ToInput_tagging_plain_rule_without_tag_set { } rfl).1 rfl⟩,
    ⟨rfl, (ToInput_tagging_plain_rule_without_tag_set
      { Tagging := "a=1", TaggingTagSet := some [] } rfl).2 (by decide)⟩⟩

/-- C4: each of the four time fields is absent in the input exactly when the
request's time is the zero time (`IsZero`), and when present it holds the
request's time. -/
theorem ToInput_time_fields (r : CopyObjectRequest) :
    TimeOmittedOrRoundTrips r.CopySourceIfModifiedSince r.ToInput.CopySourceIfModifiedSince ∧
    TimeOmittedOrRoundTrips r.CopySourceIfUnmodifiedSince r.ToInput.CopySourceIfUnmodifiedSince ∧
    TimeOmittedOrRoundTrips r.Expires r.ToInput.Expires ∧
    TimeOmittedOrRoundTrips r.ObjectLockRetainUntilDate r.ToInput.ObjectLockRetainUntilDate := by
  rw [ToInput_CopySourceIfModifiedSince, ToInput_CopySourceIfUnmodifiedSince, ToInput_Expires,
    ToInput_ObjectLockRetainUntilDate]
  exact ⟨timeOmittedOrRoundTrips_ite _, timeOmittedOrRoundTrips_ite _,
    timeOmittedOrRoundTrips_ite _, timeOmittedOrRoundTrips_ite _⟩

/-- C5: each of the eight enum-like fields of the input carries the same
underlying string as the request field, for every value: the empty string
and strings that are no known enum member included. -/
theorem ToInput_enum_fields (r : CopyObjectRequest) :
    r.ToInput.ACL.val = r.ACL.val ∧
    r.ToInput.MetadataDirective.val = r.MetadataDirective.val ∧
    r.ToInput.ObjectLockLegalHoldStatus.val = r.ObjectLockLegalHoldStatus.val ∧
    r.ToInput.ObjectLockMode.val = r.ObjectLockMode.val ∧
    r.ToInput.RequestPayer.val = r.RequestPayer.val ∧
    r.ToInput.ServerSideEncryption.val = r.ServerSideEncryption.val ∧
    r.ToInput.StorageClass.val = r.StorageClass.val ∧
    r.ToInput.TaggingDirective.val = r.TaggingDirective.val := by
  rw [ToInput_ACL, ToInput_MetadataDirective, ToInput_ObjectLockLegalHoldStatus,
    ToInput_ObjectLockMode, ToInput_RequestPayer, ToInput_ServerSideEncryption,
    ToInput_StorageClass, ToInput_TaggingDirective]
  exact ⟨rfl, rfl, rfl, rfl, rfl, rfl, rfl, rfl⟩

/-! ## The result adapter -/

theorem get_eq_valueOrEmpty (p : Option String) :
    (if h : p.isSome = true then p.get h else "") = valueOrEmpty p := by
  cases p <;> rfl

theorem get_eq_timeOrZero (p : Option Time) :
    (if h : p.isSome = true then p.get h else { sec := 0, nsec := 0, loc := 0 }) = timeOrZero p := by
  cases p <;> rfl

theorem NewCopyObjectResult_fields (o : SDK.CopyObjectResponse) (d : SDK.CopyObjectOutput)
    (hd : o.CopyObjectOutput = some d) :
    ∃ res, NewCopyObjectResult (some o) = Run.returns (some res) ∧
      res.CopySourceVersionID = valueOrEmpty d.CopySourceVersionId ∧
      res.Expiration = valueOrEmpty d.Expiration ∧
      res.RequestCharged.val = d.RequestCharged.val ∧
      res.SSECustomerAlgorithm = valueOrEmpty d.SSECustomerAlgorithm ∧
      res.SSECustomerKeyMD5 = valueOrEmpty d.SSECustomerKeyMD5 ∧
      res.SSEKMSEncryptionContext = valueOrEmpty d.SSEKMSEncryptionContext ∧
      res.SSEKMSKeyID = valueOrEmpty d.SSEKMSKeyId ∧
      res.ServerSideEncryption.val = d.ServerSideEncryption.val ∧
      res.VersionID = valueOrEmpty d.VersionId ∧
      res.CopyResultETag =
        (match d.CopyObjectResult with
          | some v => valueOrEmpty v.ETag
          | none => "") ∧
      res.CopyResultLastModified =
        (match d.CopyObjectResult with
          | some v => timeOrZero v.LastModified
          | none => { sec := 0, nsec := 0, loc := 0 }) := by
  simp only [NewCopyObjectResult, hd, Run.returns.injEq, Option.some.injEq, exists_eq_left']
  refine ⟨?_, ?_, ?_, ?_, ?_, ?_, ?_, ?_, ?_, ?_, ?_⟩
  · simp only [apply_dite CopyObjectResult.CopySourceVersionID,
      apply_ite CopyObjectResult.CopySourceVersionID, ite_self, dite_eq_ite]
    exact get_eq_valueOrEmpty _
  · simp only [apply_dite CopyObjectResult.Expiration,
      apply_ite CopyObjectResult.Expiration, ite_self, dite_eq_ite]
    exact get_eq_valueOrEmpty _
  · simp only [apply_dite CopyObjectResult.RequestCharged,
      apply_ite CopyObjectResult.RequestCharged, ite_self, dite_eq_ite]
    by_cases h : d.RequestCharged.val = "" <;> simp [h]
  · simp only [apply_dite CopyObjectResult.SSECustomerAlgorithm,
      apply_ite CopyObjectResult.SSECustomerAlgorithm, ite_self, dite_eq_ite]
    exact get_eq_valueOrEmpty _
  · simp only [apply_dite CopyObjectResult.SSECustomerKeyMD5,
      apply_ite CopyObjectResult.SSECustomerKeyMD5, ite_self, dite_eq_ite]
    exact get_eq_valueOrEmpty _
  · simp only [apply_dite CopyObjectResult.SSEKMSEncryptionContext,
      apply_ite CopyObjectResult.SSEKMSEncryptionContext, ite_self, dite_eq_ite]
    exact get_eq_valueOrEmpty _
  · simp only [apply_dite CopyObjectResult.SSEKMSKeyID,
      apply_ite CopyObjectResult.SSEKMSKeyID, ite_self, dite_eq_ite]
    exact get_eq_valueOrEmpty _
  · simp only [apply_dite CopyObjectResult.ServerSideEncryption,
      apply_ite CopyObjectResult.ServerSideEncryption, ite_self, dite_eq_ite]
    by_cases h : d.ServerSideEncryption.val = "" <;> simp [h]
  · simp only [apply_dite CopyObjectResult.VersionID,
      apply_ite CopyObjectResult.VersionID, ite_self, dite_eq_ite]
    exact get_eq_valueOrEmpty _
  · simp only [apply_dite CopyObjectResult.CopyResultETag,
      apply_ite CopyObjectResult.CopyResultETag, ite_self, dite_eq_ite]
    cases d.CopyObjectResult with
    | none => rfl
    | some v => exact get_eq_valueOrEmpty v.ETag
  · simp only [apply_dite CopyObjectResult.CopyResultLastModified,
      apply_ite CopyObjectResult.CopyResultLastModified, ite_self, dite_eq_ite]
    cases d.CopyObjectResult with
    | none => rfl
    | some v => exact get_eq_timeOrZero v.LastModified

theorem NewCopyObjectResult_hollow (o : SDK.CopyObjectResponse) (hd : o.CopyObjectOutput = none) :
    NewCopyObjectResult (some o) = Run.panics := by
  simp only [NewCopyObjectResult, hd]

theorem NewCopyObjectResult_returns_some (out : Option SDK.CopyObjectResponse)
    (x : Option CopyObjectResult) (h : NewCopyObjectResult out = Run.returns x) :
    ∃ res, x = some res := by
  cases out with
  | none =>
    simp only [NewCopyObjectResult, Run.returns.injEq] at h
    exact ⟨_, h.symm⟩
  | some o =>
    cases hd : o.CopyObjectOutput with
    | none =>
      rw [NewCopyObjectResult_hollow o hd] at h
      exact absurd h (by simp)
    | some d =>
      obtain ⟨res, hres, _⟩ := NewCopyObjectResult_fields o d hd
      rw [hres, Run.returns.injEq] at h
      exact ⟨res, h.symm⟩

/-- C6: for a nil response `NewCopyObjectResult` returns a result that is
not nil and whose every field is its zero value: all strings and enum
strings empty, the last-modified time the zero time. -/
theorem NewCopyObjectResult_nil :
    NewCopyObjectResult none = Run.returns (some
      { CopySourceVersionID := "", Expiration := "", RequestCharged := { val := "" },
        SSECustomerAlgorithm := "", SSECustomerKeyMD5 := "", SSEKMSEncryptionContext := "",
        SSEKMSKeyID := "", ServerSideEncryption := { val := "" }, VersionID := "",
        CopyResultETag := "", CopyResultLastModified := { sec := 0, nsec := 0, loc := 0 } }) := by
  rfl

/-- C7, refuted as stated: the response that is not nil and whose embedded
output pointer is nil has no result at all: `NewCopyObjectResult` panics at
the first field read (line 215). -/
theorem NewCopyObjectResult_hollow_response_panics :
    (some ({ CopyObjectOutput := none } : SDK.CopyObjectResponse) ≠ none) ∧
    NewCopyObjectResult (some { CopyObjectOutput := none }) = Run.panics ∧
    ¬ ∃ res, NewCopyObjectResult (some { CopyObjectOutput := none }) = Run.returns res := by
  have hp : NewCopyObjectResult (some { CopyObjectOutput := none }) = Run.panics := rfl
  refine ⟨by decide, hp, ?_⟩
  rintro ⟨res, h⟩
  rw [hp] at h
  exact Run.noConfusion h

/-- C7, amended: for a response that is not nil and whose embedded output is
present, `NewCopyObjectResult` returns a result that is not nil in which
each of the seven top-level string fields is the pointed-to value of the
response field when that is present and the empty string when it is absent,
and RequestCharged and ServerSideEncryption carry the response's enum
strings for every value. -/
theorem NewCopyObjectResult_top_level_fields (o : SDK.CopyObjectResponse)
    (d : SDK.CopyObjectOutput) (hd : o.CopyObjectOutput = some d) :
    ∃ res, NewCopyObjectResult (some o) = Run.returns (some res) ∧
      res.CopySourceVersionID = valueOrEmpty d.CopySourceVersionId ∧
      res.Expiration = valueOrEmpty d.Expiration ∧
      res.SSECustomerAlgorithm = valueOrEmpty d.SSECustomerAlgorithm ∧
      res.SSECustomerKeyMD5 = valueOrEmpty d.SSECustomerKeyMD5 ∧
      res.SSEKMSEncryptionContext = valueOrEmpty d.SSEKMSEncryptionContext ∧
      res.SSEKMSKeyID = valueOrEmpty d.SSEKMSKeyId ∧
      res.VersionID = valueOrEmpty d.VersionId ∧
      res.RequestCharged.val = d.RequestCharged.val ∧
      res.ServerSideEncryption.val = d.ServerSideEncryption.val := by
  obtain ⟨res, hres, h1, h2, h3, h4, h5, h6, h7, h8, h9, _, _⟩ := NewCopyObjectResult_fields o d hd
  exact ⟨res, hres, h1, h2, h4, h5, h6, h7, h9, h3, h8⟩

theorem NewCopyObjectResult_top_level_fields_witness :
    ({ CopyObjectOutput := some
        { VersionId := some "v1", Expiration := some "",
          RequestCharged := { val := "requester" } } } : SDK.CopyObjectResponse).CopyObjectOutput
      = some
        { VersionId := some "v1", Expiration := some "",
          RequestCharged := { val := "requester" } } ∧
    ∃ res,
      NewCopyObjectResult
          (some
            { CopyObjectOutput := some
                { VersionId := some "v1", Expiration := some "",
                  RequestCharged := { val := "requester" } } })
        = Run.returns (some res) ∧
      res.CopySourceVersionID = valueOrEmpty none ∧
      res.Expiration = valueOrEmpty (some "") ∧
      res.SSECustomerAlgorithm = valueOrEmpty none ∧
      res.SSECustomerKeyMD5 = valueOrEmpty none ∧
      res.SSEKMSEncryptionContext = valueOrEmpty none ∧
      res.SSEKMSKeyID = valueOrEmpty none ∧
      res.VersionID = valueOrEmpty (some "v1") ∧
      res.RequestCharged.val = "requester" ∧
      res.ServerSideEncryption.val = "" :=
  ⟨rfl, NewCopyObjectResult_top_level_fields
    { CopyObjectOutput := some
        { VersionId := some "v1", Expiration := some "",
          RequestCharged := { val := "requester" } } }
    { VersionId := some "v1", Expiration := some "", RequestCharged := { val := "requester" } }
    rfl⟩

/-- C8, refuted as stated: for the response that is not nil and whose
embedded output pointer is nil there is no nested copy result, yet no result
with an empty entity tag and a zero last-modified time comes back: the call
panics. -/
theorem NewCopyObjectResult_hollow_response_no_nested_fields :
    NewCopyObjectResult (some { CopyObjectOutput := none }) = Run.panics ∧
    ¬ ∃ res, NewCopyObjectResult (some { CopyObjectOutput := none }) = Run.returns (some res) ∧
      res.CopyResultETag = "" ∧
      res.CopyResultLastModified = { sec := 0, nsec := 0, loc := 0 } := by
  have hp : NewCopyObjectResult (some { CopyObjectOutput := none }) = Run.panics := rfl
  refine ⟨hp, ?_⟩
  rintro ⟨res, h, _⟩
  rw [hp] at h
  exact Run.noConfusion h

/-- C8, amended: for a response that is not nil and whose embedded output is
present, when the nested copy result is present the result's entity tag is
the nested ETag when present (the empty string otherwise) and its
last-modified time is the nested LastModified when present (the zero time
otherwise); when the nested copy result is absent the entity tag is the
empty string and the last-modified time the zero time. -/
theorem NewCopyObjectResult_nested_fields (o : SDK.CopyObjectResponse)
    (d : SDK.CopyObjectOutput) (hd : o.CopyObjectOutput = some d) :
    ∃ res, NewCopyObjectResult (some o) = Run.returns (some res) ∧
      res.CopyResultETag =
        (match d.CopyObjectResult with
          | some v => valueOrEmpty v.ETag
          | none => "") ∧
      res.CopyResultLastModified =
        (match d.CopyObjectResult with
          | some v => timeOrZero v.LastModified
          | none => { sec := 0, nsec := 0, loc := 0 }) := by
  obtain ⟨res, hres, _, _, _, _, _, _, _, _, _, h10, h11⟩ := NewCopyObjectResult_fields o d hd
  exact ⟨res, hres, h10, h11⟩

theorem NewCopyObjectResult_nested_fields_witness :
    (({ CopyObjectOutput := some { CopyObjectResult := some { ETag := some "etag" } } }
        : SDK.CopyObjectResponse).CopyObjectOutput
      = some { CopyObjectResult := some { ETag := some "etag" } } ∧
      ∃ res, NewCopyObjectResult
          (some { CopyObjectOutput := some { CopyObjectResult := some { ETag := some "etag" } } })
          = Run.returns (some res) ∧
        res.CopyResultETag = "etag" ∧
        res.CopyResultLastModified = { sec := 0, nsec := 0, loc := 0 }) ∧
    (({ CopyObjectOutput := some { } } : SDK.CopyObjectResponse).CopyObjectOutput = some { } ∧
      ∃ res, NewCopyObjectResult (some { CopyObjectOutput := some { } }) = Run.returns (some res) ∧
        res.CopyResultETag = "" ∧
        res.CopyResultLastModified = { sec := 0, nsec := 0, loc := 0 }) :=
  ⟨⟨rfl, NewCopyObjectResult_nested_fields
      { CopyObjectOutput := some { CopyObjectResult := some { ETag := some "etag" } } }
      { CopyObjectResult := some { ETag := some "etag" } } rfl⟩,
    ⟨rfl, NewCopyObjectResult_nested_fields { CopyObjectOutput := some { } } { } rfl⟩⟩

/-! ## The operation -/

theorem sampleErrWrap_annotates : AnnotatesOperation sampleErrWrap := by
  intro d
  refine ⟨_, rfl, ?_⟩
  refine ⟨[], (": " ++ valueOrEmpty (d.Err.map GoError.Error)).data, ?_⟩
  simp [String.data_append]

/-- C9: when the transport call on `ToInput r` fails, `CopyObject` returns a
nil result together with the error the wrapper makes of the record holding
the transport error and the operation name `CopyObject`; for a wrapper that
annotates the error with the operation name, that error is not nil and its
message contains `CopyObject`. -/
theorem CopyObject_transport_failure (svc : S3) (ctx : Context) (r : CopyObjectRequest)
    (w : Effects) (out : Option SDK.CopyObjectResponse) (e : GoError)
    (hfail : svc.RawCopyObject ctx r.ToInput = (out, some e))
    (hwrap : AnnotatesOperation svc.errWrap) :
    ∃ err, svc.errWrap { Err := some e, AWSOperation := "CopyObject" } = some err ∧
      (svc.CopyObject ctx r w).2 = Outcome.returned none (some err) ∧
      strings.Contains err.Error "CopyObject" := by
  obtain ⟨err, herr, hcontains⟩ := hwrap { Err := some e, AWSOperation := "CopyObject" }
  refine ⟨err, herr, ?_, hcontains⟩
  simp only [S3.CopyObject, hfail, herr]

theorem CopyObject_transport_failure_witness :
    failingService.RawCopyObject {} (CopyObjectRequest.ToInput { Bucket := "b" })
        = (none, some { Error := "boom" }) ∧
    AnnotatesOperation failingService.errWrap ∧
    ∃ err, failingService.errWrap { Err := some { Error := "boom" }, AWSOperation := "CopyObject" }
        = some err ∧
      (failingService.CopyObject {} { Bucket := "b" } {}).2 = Outcome.returned none (some err) ∧
      strings.Contains err.Error "CopyObject" :=
  ⟨rfl, sampleErrWrap_annotates,
    CopyObject_transport_failure failingService {} { Bucket := "b" } {} none { Error := "boom" }
      rfl sampleErrWrap_annotates⟩

/-- C10, refuted as stated: when the transport call succeeds with a response
that is not nil and whose embedded output pointer is nil, `CopyObject` does
not return: it panics inside `NewCopyObjectResult`. -/
theorem CopyObject_hollow_response_panics :
    hollowService.RawCopyObject {} (CopyObjectRequest.ToInput { Bucket := "b" })
      = (some { CopyObjectOutput := none }, none) ∧
    (hollowService.CopyObject {} { Bucket := "b" } {}).2 = Outcome.panicked ∧
    ¬ ∃ res, (hollowService.CopyObject {} { Bucket := "b" } {}).2
      = Outcome.returned (some res) none := by
  have h : (hollowService.CopyObject {} { Bucket := "b" } {}).2 = Outcome.panicked := by
    simp only [S3.CopyObject, hollowService, NewCopyObjectResult]
  refine ⟨rfl, h, ?_⟩
  rintro ⟨res, hres⟩
  rw [h] at hres
  exact absurd hres (by simp)

/-- C10, amended: when the transport call on `ToInput r` succeeds with a
response `out` that is nil or has its embedded output present, `CopyObject`
returns a nil error and a result that is not nil and is
`NewCopyObjectResult out`; whenever `CopyObject` returns, its result is nil
exactly when the transport call failed; and it does return, with a nil
result, when the transport call failed and the wrapper gives an error that
is not nil. -/
theorem CopyObject_result_nil_iff_failure (svc : S3) (ctx : Context) (r : CopyObjectRequest)
    (w : Effects) :
    (∀ out, svc.RawCopyObject ctx r.ToInput = (out, none) →
      (out = none ∨ ∃ o d, out = some o ∧ o.CopyObjectOutput = some d) →
      ∃ res, NewCopyObjectResult out = Run.returns (some res) ∧
        (svc.CopyObject ctx r w).2 = Outcome.returned (some res) none) ∧
    (∀ res err, (svc.CopyObject ctx r w).2 = Outcome.returned res err →
      (res = none ↔ (svc.RawCopyObject ctx r.ToInput).2 ≠ none)) ∧
    ((∀ d, svc.errWrap d ≠ none) → (svc.RawCopyObject ctx r.ToInput).2 ≠ none →
      ∃ err, err ≠ none ∧ (svc.CopyObject ctx r w).2 = Outcome.returned none err) := by
  refine ⟨?_, ?_, ?_⟩
  · intro out hout hwell
    have hsome : ∃ res, NewCopyObjectResult out = Run.returns (some res) := by
      rcases hwell with hnil | ⟨o, d, ho, hd⟩
      · subst hnil
        exact ⟨_, rfl⟩
      · subst ho
        obtain ⟨res, hres, _⟩ := NewCopyObjectResult_fields o d hd
        exact ⟨res, hres⟩
    obtain ⟨res, hres⟩ := hsome
    refine ⟨res, hres, ?_⟩
    simp only [S3.CopyObject, hout, hres]
  · intro res err hret
    rcases hcall : svc.RawCopyObject ctx r.ToInput with ⟨out, _ | e⟩
    · cases hnew : NewCopyObjectResult out with
      | panics => simp [S3.CopyObject, hcall, hnew] at hret
      | returns x =>
        obtain ⟨res0, hres0⟩ := NewCopyObjectResult_returns_some out x hnew
        subst hres0
        simp only [S3.CopyObject, hcall, hnew, Outcome.returned.injEq] at hret
        simp [← hret.1]
    · cases hwrap : svc.errWrap { Err := some e, AWSOperation := "CopyObject" } with
      | none => simp [S3.CopyObject, hcall, hwrap] at hret
      | some err0 =>
        simp only [S3.CopyObject, hcall, hwrap, Outcome.returned.injEq] at hret
        simp [← hret.1]
  · intro hwrap hfail
    rcases hcall : svc.RawCopyObject ctx r.ToInput with ⟨out, _ | e⟩
    · simp [hcall] at hfail
    · cases hw : svc.errWrap { Err := some e, AWSOperation := "CopyObject" } with
      | none => exact absurd hw (hwrap _)
      | some err0 =>
        refine ⟨some err0, by simp, ?_⟩
        simp only [S3.CopyObject, hcall, hw]

theorem CopyObject_result_nil_iff_failure_witness :
    (emptyService.RawCopyObject {} (CopyObjectRequest.ToInput { Bucket := "b" }) = (none, none) ∧
      ∃ res, NewCopyObjectResult none = Run.returns (some res) ∧
        (emptyService.CopyObject {} { Bucket := "b" } {}).2 = Outcome.returned (some res) none) ∧
    (versionedService.RawCopyObject {} (CopyObjectRequest.ToInput { Bucket := "b" })
        = (some { CopyObjectOutput := some { VersionId := some "v1" } }, none) ∧
      ∃ res, NewCopyObjectResult (some { CopyObjectOutput := some { VersionId := some "v1" } })
          = Run.returns (some res) ∧
        (versionedService.CopyObject {} { Bucket := "b" } {}).2
          = Outcome.returned (some res) none) ∧
    ((∀ d, failingService.errWrap d ≠ none) ∧
      (failingService.RawCopyObject {} (CopyObjectRequest.ToInput { Bucket := "b" })).2 ≠ none ∧
      ∃ err, err ≠ none ∧
        (failingService.CopyObject {} { Bucket := "b" } {}).2 = Outcome.returned none err) :=
  ⟨⟨rfl, (CopyObject_result_nil_iff_failure emptyService {} { Bucket := "b" } {}).1 none rfl
      (Or.inl rfl)⟩,
    ⟨rfl, (CopyObject_result_nil_iff_failure versionedService {} { Bucket := "b" } {}).1
      (some { CopyObjectOutput := some { VersionId := some "v1" } }) rfl
      (Or.inr ⟨_, _, rfl, rfl⟩)⟩,
    ⟨fun _ => Option.some_ne_none _, Option.some_ne_none _,
      (CopyObject_result_nil_iff_failure failingService {} { Bucket := "b" } {}).2.2
        (fun _ => Option.some_ne_none _) (Option.some_ne_none _)⟩⟩

/-! ## Two structs with the same fields are equal -/

theorem CopyObjectInput_eq_of_fields (x y : SDK.CopyObjectInput)
    (h0 : x.ACL = y.ACL)
    (h1 : x.Bucket = y.Bucket)
    (h2 : x.CacheControl = y.CacheControl)
    (h3 : x.ContentDisposition = y.ContentDisposition)
    (h4 : x.ContentEncoding = y.ContentEncoding)
    (h5 : x.ContentLanguage = y.ContentLanguage)
    (h6 : x.ContentType = y.ContentType)
    (h7 : x.CopySource = y.CopySource)
    (h8 : x.CopySourceIfMatch = y.CopySourceIfMatch)
    (h9 : x.CopySourceIfModifiedSince = y.CopySourceIfModifiedSince)
    (h10 : x.CopySourceIfNoneMatch = y.CopySourceIfNoneMatch)
    (h11 : x.CopySourceIfUnmodifiedSince = y.CopySourceIfUnmodifiedSince)
    (h12 : x.CopySourceSSECustomerAlgorithm = y.CopySourceSSECustomerAlgorithm)
    (h13 : x.CopySourceSSECustomerKey = y.CopySourceSSECustomerKey)
    (h14 : x.CopySourceSSECustomerKeyMD5 = y.CopySourceSSECustomerKeyMD5)
    (h15 : x.Expires = y.Expires)
    (h16 : x.GrantFullControl = y.GrantFullControl)
    (h17 : x.GrantRead = y.GrantRead)
    (h18 : x.GrantReadACP = y.GrantReadACP)
    (h19 : x.GrantWriteACP = y.GrantWriteACP)
    (h20 : x.Key = y.Key)
    (h21 : x.Metadata = y.Metadata)
    (h22 : x.MetadataDirective = y.MetadataDirective)
    (h23 : x.ObjectLockLegalHoldStatus = y.ObjectLockLegalHoldStatus)
    (h24 : x.ObjectLockMode = y.ObjectLockMode)
    (h25 : x.ObjectLockRetainUntilDate = y.ObjectLockRetainUntilDate)
    (h26 : x.RequestPayer = y.RequestPayer)
    (h27 : x.SSECustomerAlgorithm = y.SSECustomerAlgorithm)
    (h28 : x.SSECustomerKey = y.SSECustomerKey)
    (h29 : x.SSECustomerKeyMD5 = y.SSECustomerKeyMD5)
    (h30 : x.SSEKMSEncryptionContext = y.SSEKMSEncryptionContext)
    (h31 : x.SSEKMSKeyId = y.SSEKMSKeyId)
    (h32 : x.ServerSideEncryption = y.ServerSideEncryption)
    (h33 : x.StorageClass = y.StorageClass)
    (h34 : x.Tagging = y.Tagging)
    (h35 : x.TaggingDirective = y.TaggingDirective)
    (h36 : x.WebsiteRedirectLocation = y.WebsiteRedirectLocation) :
    x = y := by
  cases x
  cases y
  simp only at *
  simp only [*]

theorem CopyObjectRequest_eq_of_fields (x y : CopyObjectRequest)
    (h0 : x.Bucket = y.Bucket)
    (h1 : x.Key = y.Key)
    (h2 : x.CopySource = y.CopySource)
    (h3 : x.ACL = y.ACL)
    (h4 : x.CacheControl = y.CacheControl)
    (h5 : x.ContentDisposition = y.ContentDisposition)
    (h6 : x.ContentEncoding = y.ContentEncoding)
    (h7 : x.ContentLanguage = y.ContentLanguage)
    (h8 : x.ContentType = y.ContentType)
    (h9 : x.CopySourceIfMatch = y.CopySourceIfMatch)
    (h10 : x.CopySourceIfModifiedSince = y.CopySourceIfModifiedSince)
    (h11 : x.CopySourceIfNoneMatch = y.CopySourceIfNoneMatch)
    (h12 : x.CopySourceIfUnmodifiedSince = y.CopySourceIfUnmodifiedSince)
    (h13 : x.CopySourceSSECustomerAlgorithm = y.CopySourceSSECustomerAlgorithm)
    (h14 : x.CopySourceSSECustomerKey = y.CopySourceSSECustomerKey)
    (h15 : x.CopySourceSSECustomerKeyMD5 = y.CopySourceSSECustomerKeyMD5)
    (h16 : x.Expires = y.Expires)
    (h17 : x.GrantFullControl = y.GrantFullControl)
    (h18 : x.GrantRead = y.GrantRead)
    (h19 : x.GrantReadACP = y.GrantReadACP)
    (h20 : x.GrantWriteACP = y.GrantWriteACP)
    (h21 : x.Metadata = y.Metadata)
    (h22 : x.MetadataDirective = y.MetadataDirective)
    (h23 : x.ObjectLockLegalHoldStatus = y.ObjectLockLegalHoldStatus)
    (h24 : x.ObjectLockMode = y.ObjectLockMode)
    (h25 : x.ObjectLockRetainUntilDate = y.ObjectLockRetainUntilDate)
    (h26 : x.RequestPayer = y.RequestPayer)
    (h27 : x.SSECustomerAlgorithm = y.SSECustomerAlgorithm)
    (h28 : x.SSECustomerKey = y.SSECustomerKey)
    (h29 : x.SSECustomerKeyMD5 = y.SSECustomerKeyMD5)
    (h30 : x.SSEKMSEncryptionContext = y.SSEKMSEncryptionContext)
    (h31 : x.SSEKMSKeyID = y.SSEKMSKeyID)
    (h32 : x.ServerSideEncryption = y.ServerSideEncryption)
    (h33 : x.StorageClass = y.StorageClass)
    (h34 : x.Tagging = y.Tagging)
    (h35 : x.TaggingDirective = y.TaggingDirective)
    (h36 : x.WebsiteRedirectLocation = y.WebsiteRedirectLocation)
    (h37 : x.TaggingTagSet = y.TaggingTagSet) :
    x = y := by
  cases x
  cases y
  simp only at *
  simp only [*]

/-! ## Injectivity -/

theorem ite_some_inj (a b : String)
    (h : (if a ≠ "" then some a else none) = (if b ≠ "" then some b else none)) : a = b := by
  by_cases ha : a = "" <;> by_cases hb : b = "" <;> simp_all

theorem ite_time_inj (a b : Time)
    (ha : a.IsZero = true → a = { sec := 0, nsec := 0, loc := 0 })
    (hb : b.IsZero = true → b = { sec := 0, nsec := 0, loc := 0 })
    (h : (if (!a.IsZero) = true then some a else none)
      = (if (!b.IsZero) = true then some b else none)) : a = b := by
  cases hza : a.IsZero <;> cases hzb : b.IsZero <;> simp_all

/-- C11, refuted as stated: the request with Tagging `x=y` and the request
with the tag set `[(x, y)]` are different and have the same input; so have
the request whose Expires is the zero instant with a location attached and
the request whose Expires is the zero value; and so have the request whose
tag set is the empty slice and the request whose tag set is the nil slice. -/
theorem ToInput_not_injective :
    (({ Tagging := "x=y" } : CopyObjectRequest) ≠ { TaggingTagSet := some [⟨"x", "y"⟩] } ∧
      CopyObjectRequest.ToInput { Tagging := "x=y" }
        = CopyObjectRequest.ToInput { TaggingTagSet := some [⟨"x", "y"⟩] }) ∧
    (({ Expires := { sec := 0, nsec := 0, loc := 1 } } : CopyObjectRequest) ≠ { } ∧
      CopyObjectRequest.ToInput { Expires := { sec := 0, nsec := 0, loc := 1 } }
        = CopyObjectRequest.ToInput { }) ∧
    (({ TaggingTagSet := some [] } : CopyObjectRequest) ≠ { TaggingTagSet := none } ∧
      CopyObjectRequest.ToInput { TaggingTagSet := some [] }
        = CopyObjectRequest.ToInput { TaggingTagSet := none }) := by
  decide

/-- C11, amended: on requests whose tag set is the nil slice and whose
zero-instant time fields are the zero value of `time.Time`, `ToInput` is
injective: two such requests with the same input are equal. -/
theorem ToInput_injective_on_canonical (r1 r2 : CopyObjectRequest)
    (hc1 : r1.Canonical) (hc2 : r2.Canonical) (h : r1.ToInput = r2.ToInput) : r1 = r2 := by
  obtain ⟨hs1, ha1, hb1, hx1, hd1⟩ := hc1
  obtain ⟨hs2, ha2, hb2, hx2, hd2⟩ := hc2
  have htags1 : r1.tags = r1.Tagging := by simp [CopyObjectRequest.tags, TagSlice.len, hs1]
  have htags2 : r2.tags = r2.Tagging := by simp [CopyObjectRequest.tags, TagSlice.len, hs2]
  have hBucket := congrArg SDK.CopyObjectInput.Bucket h
  rw [ToInput_Bucket, ToInput_Bucket] at hBucket
  have hKey := congrArg SDK.CopyObjectInput.Key h
  rw [ToInput_Key, ToInput_Key] at hKey
  have hCopySource := congrArg SDK.CopyObjectInput.CopySource h
  rw [ToInput_CopySource, ToInput_CopySource] at hCopySource
  have hCacheControl := congrArg SDK.CopyObjectInput.CacheControl h
  rw [ToInput_CacheControl, ToInput_CacheControl] at hCacheControl
  have hContentDisposition := congrArg SDK.CopyObjectInput.ContentDisposition h
  rw [ToInput_ContentDisposition, ToInput_ContentDisposition] at hContentDisposition
  have hContentEncoding := congrArg SDK.CopyObjectInput.ContentEncoding h
  rw [ToInput_ContentEncoding, ToInput_ContentEncoding] at hContentEncoding
  have hContentLanguage := congrArg SDK.CopyObjectInput.ContentLanguage h
  rw [ToInput_ContentLanguage, ToInput_ContentLanguage] at hContentLanguage
  have hContentType := congrArg SDK.CopyObjectInput.ContentType h
  rw [ToInput_ContentType, ToInput_ContentType] at hContentType
  have hCopySourceIfMatch := congrArg SDK.CopyObjectInput.CopySourceIfMatch h
  rw [ToInput_CopySourceIfMatch, ToInput_CopySourceIfMatch] at hCopySourceIfMatch
  have hCopySourceIfNoneMatch := congrArg SDK.CopyObjectInput.CopySourceIfNoneMatch h
  rw [ToInput_CopySourceIfNoneMatch, ToInput_CopySourceIfNoneMatch] at hCopySourceIfNoneMatch
  have hCopySourceSSECustomerAlgorithm := congrArg SDK.CopyObjectInput.CopySourceSSECustomerAlgorithm h
  rw [ToInput_CopySourceSSECustomerAlgorithm, ToInput_CopySourceSSECustomerAlgorithm] at hCopySourceSSECustomerAlgorithm
  have hCopySourceSSECustomerKey := congrArg SDK.CopyObjectInput.CopySourceSSECustomerKey h
  rw [ToInput_CopySourceSSECustomerKey, ToInput_CopySourceSSECustomerKey] at hCopySourceSSECustomerKey
  have hCopySourceSSECustomerKeyMD5 := congrArg SDK.CopyObjectInput.CopySourceSSECustomerKeyMD5 h
  rw [ToInput_CopySourceSSECustomerKeyMD5, ToInput_CopySourceSSECustomerKeyMD5] at hCopySourceSSECustomerKeyMD5
  have hGrantFullControl := congrArg SDK.CopyObjectInput.GrantFullControl h
  rw [ToInput_GrantFullControl, ToInput_GrantFullControl] at hGrantFullControl
  have hGrantRead := congrArg SDK.CopyObjectInput.GrantRead h
  rw [ToInput_GrantRead, ToInput_GrantRead] at hGrantRead
  have hGrantReadACP := congrArg SDK.CopyObjectInput.GrantReadACP h
  rw [ToInput_GrantReadACP, ToInput_GrantReadACP] at hGrantReadACP
  have hGrantWriteACP := congrArg SDK.CopyObjectInput.GrantWriteACP h
  rw [ToInput_GrantWriteACP, ToInput_GrantWriteACP] at hGrantWriteACP
  have hSSECustomerAlgorithm := congrArg SDK.CopyObjectInput.SSECustomerAlgorithm h
  rw [ToInput_SSECustomerAlgorithm, ToInput_SSECustomerAlgorithm] at hSSECustomerAlgorithm
  have hSSECustomerKey := congrArg SDK.CopyObjectInput.SSECustomerKey h
  rw [ToInput_SSECustomerKey, ToInput_SSECustomerKey] at hSSECustomerKey
  have hSSECustomerKeyMD5 := congrArg SDK.CopyObjectInput.SSECustomerKeyMD5 h
  rw [ToInput_SSECustomerKeyMD5, ToInput_SSECustomerKeyMD5] at hSSECustomerKeyMD5
  have hSSEKMSEncryptionContext := congrArg SDK.CopyObjectInput.SSEKMSEncryptionContext h
  rw [ToInput_SSEKMSEncryptionContext, ToInput_SSEKMSEncryptionContext] at hSSEKMSEncryptionContext
  have hSSEKMSKeyID := congrArg SDK.CopyObjectInput.SSEKMSKeyId h
  rw [ToInput_SSEKMSKeyID, ToInput_SSEKMSKeyID] at hSSEKMSKeyID
  have hWebsiteRedirectLocation := congrArg SDK.CopyObjectInput.WebsiteRedirectLocation h
  rw [ToInput_WebsiteRedirectLocation, ToInput_WebsiteRedirectLocation] at hWebsiteRedirectLocation
  have hCopySourceIfModifiedSince := congrArg SDK.CopyObjectInput.CopySourceIfModifiedSince h
  rw [ToInput_CopySourceIfModifiedSince, ToInput_CopySourceIfModifiedSince] at hCopySourceIfModifiedSince
  have hCopySourceIfUnmodifiedSince := congrArg SDK.CopyObjectInput.CopySourceIfUnmodifiedSince h
  rw [ToInput_CopySourceIfUnmodifiedSince, ToInput_CopySourceIfUnmodifiedSince] at hCopySourceIfUnmodifiedSince
  have hExpires := congrArg SDK.CopyObjectInput.Expires h
  rw [ToInput_Expires, ToInput_Expires] at hExpires
  have hObjectLockRetainUntilDate := congrArg SDK.CopyObjectInput.ObjectLockRetainUntilDate h
  rw [ToInput_ObjectLockRetainUntilDate, ToInput_ObjectLockRetainUntilDate] at hObjectLockRetainUntilDate
  have hACL := congrArg SDK.CopyObjectInput.ACL h
  rw [ToInput_ACL, ToInput_ACL] at hACL
  have hMetadataDirective := congrArg SDK.CopyObjectInput.MetadataDirective h
  rw [ToInput_MetadataDirective, ToInput_MetadataDirective] at hMetadataDirective
  have hObjectLockLegalHoldStatus := congrArg SDK.CopyObjectInput.ObjectLockLegalHoldStatus h
  rw [ToInput_ObjectLockLegalHoldStatus, ToInput_ObjectLockLegalHoldStatus] at hObjectLockLegalHoldStatus
  have hObjectLockMode := congrArg SDK.CopyObjectInput.ObjectLockMode h
  rw [ToInput_ObjectLockMode, ToInput_ObjectLockMode] at hObjectLockMode
  have hRequestPayer := congrArg SDK.CopyObjectInput.RequestPayer h
  rw [ToInput_RequestPayer, ToInput_RequestPayer] at hRequestPayer
  have hServerSideEncryption := congrArg SDK.CopyObjectInput.ServerSideEncryption h
  rw [ToInput_ServerSideEncryption, ToInput_ServerSideEncryption] at hServerSideEncryption
  have hStorageClass := congrArg SDK.CopyObjectInput.StorageClass h
  rw [ToInput_StorageClass, ToInput_StorageClass] at hStorageClass
  have hTaggingDirective := congrArg SDK.CopyObjectInput.TaggingDirective h
  rw [ToInput_TaggingDirective, ToInput_TaggingDirective] at hTaggingDirective
  have hMetadata := congrArg SDK.CopyObjectInput.Metadata h
  rw [ToInput_Metadata, ToInput_Metadata] at hMetadata
  have hTagging := congrArg SDK.CopyObjectInput.Tagging h
  rw [ToInput_Tagging, ToInput_Tagging] at hTagging
  rw [htags1, htags2] at hTagging
  apply CopyObjectRequest_eq_of_fields
  · exact ite_some_inj _ _ hBucket
  · exact ite_some_inj _ _ hKey
  · exact ite_some_inj _ _ hCopySource
  · cases hv1 : r1.ACL
    cases hv2 : r2.ACL
    rw [hv1, hv2] at hACL
    simpa using hACL
  · exact ite_some_inj _ _ hCacheControl
  · exact ite_some_inj _ _ hContentDisposition
  · exact ite_some_inj _ _ hContentEncoding
  · exact ite_some_inj _ _ hContentLanguage
  · exact ite_some_inj _ _ hContentType
  · exact ite_some_inj _ _ hCopySourceIfMatch
  · exact ite_time_inj _ _ ha1 ha2 hCopySourceIfModifiedSince
  · exact ite_some_inj _ _ hCopySourceIfNoneMatch
  · exact ite_time_inj _ _ hb1 hb2 hCopySourceIfUnmodifiedSince
  · exact ite_some_inj _ _ hCopySourceSSECustomerAlgorithm
  · exact ite_some_inj _ _ hCopySourceSSECustomerKey
  · exact ite_some_inj _ _ hCopySourceSSECustomerKeyMD5
  · exact ite_time_inj _ _ hx1 hx2 hExpires
  · exact ite_some_inj _ _ hGrantFullControl
  · exact ite_some_inj _ _ hGrantRead
  · exact ite_some_inj _ _ hGrantReadACP
  · exact ite_some_inj _ _ hGrantWriteACP
  · exact hMetadata
  · cases hv1 : r1.MetadataDirective
    cases hv2 : r2.MetadataDirective
    rw [hv1, hv2] at hMetadataDirective
    simpa using hMetadataDirective
  · cases hv1 : r1.ObjectLockLegalHoldStatus
    cases hv2 : r2.ObjectLockLegalHoldStatus
    rw [hv1, hv2] at hObjectLockLegalHoldStatus
    simpa using hObjectLockLegalHoldStatus
  · cases hv1 : r1.ObjectLockMode
    cases hv2 : r2.ObjectLockMode
    rw [hv1, hv2] at hObjectLockMode
    simpa using hObjectLockMode
  · exact ite_time_inj _ _ hd1 hd2 hObjectLockRetainUntilDate
  · cases hv1 : r1.RequestPayer
    cases hv2 : r2.RequestPayer
    rw [hv1, hv2] at hRequestPayer
    simpa using hRequestPayer
  · exact ite_some_inj _ _ hSSECustomerAlgorithm
  · exact ite_some_inj _ _ hSSECustomerKey
  · exact ite_some_inj _ _ hSSECustomerKeyMD5
  · exact ite_some_inj _ _ hSSEKMSEncryptionContext
  · exact ite_some_inj _ _ hSSEKMSKeyID
  · cases hv1 : r1.ServerSideEncryption
    cases hv2 : r2.ServerSideEncryption
    rw [hv1, hv2] at hServerSideEncryption
    simpa using hServerSideEncryption
  · cases hv1 : r1.StorageClass
    cases hv2 : r2.StorageClass
    rw [hv1, hv2] at hStorageClass
    simpa using hStorageClass
  · exact ite_some_inj _ _ hTagging
  · cases hv1 : r1.TaggingDirective
    cases hv2 : r2.TaggingDirective
    rw [hv1, hv2] at hTaggingDirective
    simpa using hTaggingDirective
  · exact ite_some_inj _ _ hWebsiteRedirectLocation
  · rw [hs1, hs2]

theorem ToInput_injective_on_canonical_witness :
    CopyObjectRequest.Canonical { Bucket := "b", Tagging := "a=1" } ∧
    CopyObjectRequest.Canonical { Bucket := "b", Tagging := "a=1", TaggingTagSet := none } ∧
    CopyObjectRequest.ToInput { Bucket := "b", Tagging := "a=1" }
      = CopyObjectRequest.ToInput { Bucket := "b", Tagging := "a=1", TaggingTagSet := none } ∧
    ({ Bucket := "b", Tagging := "a=1" } : CopyObjectRequest)
      = { Bucket := "b", Tagging := "a=1", TaggingTagSet := none } :=
  ⟨⟨rfl, fun _ => rfl, fun _ => rfl, fun _ => rfl, fun _ => rfl⟩,
    ⟨rfl, fun _ => rfl, fun _ => rfl, fun _ => rfl, fun _ => rfl⟩, rfl,
    ToInput_injective_on_canonical { Bucket := "b", Tagging := "a=1" }
      { Bucket := "b", Tagging := "a=1", TaggingTagSet := none }
      ⟨rfl, fun _ => rfl, fun _ => rfl, fun _ => rfl, fun _ => rfl⟩
      ⟨rfl, fun _ => rfl, fun _ => rfl, fun _ => rfl, fun _ => rfl⟩ rfl⟩

/-! ## Injectivity of the result adapter -/

theorem CopyObjectResult_eq_of_fields (x y : CopyObjectResult)
    (h0 : x.CopySourceVersionID = y.CopySourceVersionID)
    (h1 : x.Expiration = y.Expiration)
    (h2 : x.RequestCharged.val = y.RequestCharged.val)
    (h3 : x.SSECustomerAlgorithm = y.SSECustomerAlgorithm)
    (h4 : x.SSECustomerKeyMD5 = y.SSECustomerKeyMD5)
    (h5 : x.SSEKMSEncryptionContext = y.SSEKMSEncryptionContext)
    (h6 : x.SSEKMSKeyID = y.SSEKMSKeyID)
    (h7 : x.ServerSideEncryption.val = y.ServerSideEncryption.val)
    (h8 : x.VersionID = y.VersionID)
    (h9 : x.CopyResultETag = y.CopyResultETag)
    (h10 : x.CopyResultLastModified = y.CopyResultLastModified) :
    x = y := by
  obtain ⟨_, _, ⟨_⟩, _, _, _, _, ⟨_⟩, _, _, _⟩ := x
  obtain ⟨_, _, ⟨_⟩, _, _, _, _, ⟨_⟩, _, _, _⟩ := y
  simp only at *
  simp only [*]

/-- C12, refuted as stated: with the embedded output present, the response
with every field absent and the response whose VersionId points to the
empty string differ in the presence of VersionId and have the same result;
so have the response whose nested copy result has no ETag and the one whose
nested ETag points to the empty string. -/
theorem NewCopyObjectResult_not_injective :
    (({ } : SDK.CopyObjectOutput).VersionId
        ≠ ({ VersionId := some "" } : SDK.CopyObjectOutput).VersionId ∧
      NewCopyObjectResult (some { CopyObjectOutput := some { } })
        = NewCopyObjectResult (some { CopyObjectOutput := some { VersionId := some "" } })) ∧
    ((({ ETag := none } : SDK.CopyObjectResult).ETag
        ≠ ({ ETag := some "" } : SDK.CopyObjectResult).ETag) ∧
      NewCopyObjectResult
          (some { CopyObjectOutput := some { CopyObjectResult := some { ETag := none } } })
        = NewCopyObjectResult
          (some { CopyObjectOutput := some { CopyObjectResult := some { ETag := some "" } } })) := by
  decide

/-- C12, amended: for two responses that are not nil and whose embedded
outputs are present, the results are equal exactly when the outputs carry
the same values in effect, so the results differ exactly when some field
read differs in its pointed-to value, an absent field counting as its zero
value; the nil response has the result of the response whose embedded output
has every field absent. -/
theorem NewCopyObjectResult_eq_iff (o1 o2 : SDK.CopyObjectResponse)
    (d1 d2 : SDK.CopyObjectOutput)
    (hd1 : o1.CopyObjectOutput = some d1) (hd2 : o2.CopyObjectOutput = some d2) :
    (NewCopyObjectResult (some o1) = NewCopyObjectResult (some o2) ↔ SameEffectiveValues d1 d2) ∧
    (NewCopyObjectResult (some o1) ≠ NewCopyObjectResult (some o2) ↔
      ¬ SameEffectiveValues d1 d2) ∧
    NewCopyObjectResult none = NewCopyObjectResult (some { CopyObjectOutput := some { } }) := by
  obtain ⟨res1, hres1, a1, a2, a3, a4, a5, a6, a7, a8, a9, a10, a11⟩ :=
    NewCopyObjectResult_fields o1 d1 hd1
  obtain ⟨res2, hres2, b1, b2, b3, b4, b5, b6, b7, b8, b9, b10, b11⟩ :=
    NewCopyObjectResult_fields o2 d2 hd2
  have key : NewCopyObjectResult (some o1) = NewCopyObjectResult (some o2) ↔
      SameEffectiveValues d1 d2 := by
    have a10e : res1.CopyResultETag = effectiveETag d1 := a10
    have a11e : res1.CopyResultLastModified = effectiveLastModified d1 := a11
    have b10e : res2.CopyResultETag = effectiveETag d2 := b10
    have b11e : res2.CopyResultLastModified = effectiveLastModified d2 := b11
    rw [hres1, hres2, Run.returns.injEq, Option.some.injEq]
    unfold SameEffectiveValues
    rw [← a1, ← a2, ← a3, ← a4, ← a5, ← a6, ← a7, ← a8, ← a9, ← a10e, ← a11e,
      ← b1, ← b2, ← b3, ← b4, ← b5, ← b6, ← b7, ← b8, ← b9, ← b10e, ← b11e]
    constructor
    · intro h
      rw [h]
      exact ⟨rfl, rfl, rfl, rfl, rfl, rfl, rfl, rfl, rfl, rfl, rfl⟩
    · rintro ⟨h0, h1, h2, h3, h4, h5, h6, h7, h8, h9, h10⟩
      exact CopyObjectResult_eq_of_fields res1 res2 h0 h1 h2 h3 h4 h5 h6 h7 h8 h9 h10
  exact ⟨key, not_congr key, by decide⟩

theorem NewCopyObjectResult_eq_iff_witness :
    ({ CopyObjectOutput := some { VersionId := some "v1" } } : SDK.CopyObjectResponse).CopyObjectOutput
      = some { VersionId := some "v1" } ∧
    ({ CopyObjectOutput := some { VersionId := some "v2" } } : SDK.CopyObjectResponse).CopyObjectOutput
      = some { VersionId := some "v2" } ∧
    ¬ SameEffectiveValues { VersionId := some "v1" } { VersionId := some "v2" } ∧
    NewCopyObjectResult (some { CopyObjectOutput := some { VersionId := some "v1" } })
      ≠ NewCopyObjectResult (some { CopyObjectOutput := some { VersionId := some "v2" } }) :=
  have hne : ¬ SameEffectiveValues { VersionId := some "v1" } { VersionId := some "v2" } :=
    fun h => absurd h.2.2.2.2.2.2.2.2.1 (by decide)
  ⟨rfl, rfl, hne,
    (NewCopyObjectResult_eq_iff { CopyObjectOutput := some { VersionId := some "v1" } }
      { CopyObjectOutput := some { VersionId := some "v2" } }
      { VersionId := some "v1" } { VersionId := some "v2" } rfl rfl).2.1.mpr hne⟩

/-! ## Independence of the fields -/

/-- C13: the fields of the input are independent. For each input field other
than Tagging, two requests that agree on the same-named request field give
the same input field; the input's Tagging depends only on the request's
Tagging and the entries of its tag set; and changing only Tagging and the
tag set of a request changes no field of the input other than Tagging. -/
theorem ToInput_field_independence (r1 r2 : CopyObjectRequest) :
    (r1.Bucket = r2.Bucket → r1.ToInput.Bucket = r2.ToInput.Bucket) ∧
    (r1.Key = r2.Key → r1.ToInput.Key = r2.ToInput.Key) ∧
    (r1.CopySource = r2.CopySource → r1.ToInput.CopySource = r2.ToInput.CopySource) ∧
    (r1.CacheControl = r2.CacheControl → r1.ToInput.CacheControl = r2.ToInput.CacheControl) ∧
    (r1.ContentDisposition = r2.ContentDisposition → r1.ToInput.ContentDisposition = r2.ToInput.ContentDisposition) ∧
    (r1.ContentEncoding = r2.ContentEncoding → r1.ToInput.ContentEncoding = r2.ToInput.ContentEncoding) ∧
    (r1.ContentLanguage = r2.ContentLanguage → r1.ToInput.ContentLanguage = r2.ToInput.ContentLanguage) ∧
    (r1.ContentType = r2.ContentType → r1.ToInput.ContentType = r2.ToInput.ContentType) ∧
    (r1.CopySourceIfMatch = r2.CopySourceIfMatch → r1.ToInput.CopySourceIfMatch = r2.ToInput.CopySourceIfMatch) ∧
    (r1.CopySourceIfNoneMatch = r2.CopySourceIfNoneMatch → r1.ToInput.CopySourceIfNoneMatch = r2.ToInput.CopySourceIfNoneMatch) ∧
    (r1.CopySourceSSECustomerAlgorithm = r2.CopySourceSSECustomerAlgorithm → r1.ToInput.CopySourceSSECustomerAlgorithm = r2.ToInput.CopySourceSSECustomerAlgorithm) ∧
    (r1.CopySourceSSECustomerKey = r2.CopySourceSSECustomerKey → r1.ToInput.CopySourceSSECustomerKey = r2.ToInput.CopySourceSSECustomerKey) ∧
    (r1.CopySourceSSECustomerKeyMD5 = r2.CopySourceSSECustomerKeyMD5 → r1.ToInput.CopySourceSSECustomerKeyMD5 = r2.ToInput.CopySourceSSECustomerKeyMD5) ∧
    (r1.GrantFullControl = r2.GrantFullControl → r1.ToInput.GrantFullControl = r2.ToInput.GrantFullControl) ∧
    (r1.GrantRead = r2.GrantRead → r1.ToInput.GrantRead = r2.ToInput.GrantRead) ∧
    (r1.GrantReadACP = r2.GrantReadACP → r1.ToInput.GrantReadACP = r2.ToInput.GrantReadACP) ∧
    (r1.GrantWriteACP = r2.GrantWriteACP → r1.ToInput.GrantWriteACP = r2.ToInput.GrantWriteACP) ∧
    (r1.SSECustomerAlgorithm = r2.SSECustomerAlgorithm → r1.ToInput.SSECustomerAlgorithm = r2.ToInput.SSECustomerAlgorithm) ∧
    (r1.SSECustomerKey = r2.SSECustomerKey → r1.ToInput.SSECustomerKey = r2.ToInput.SSECustomerKey) ∧
    (r1.SSECustomerKeyMD5 = r2.SSECustomerKeyMD5 → r1.ToInput.SSECustomerKeyMD5 = r2.ToInput.SSECustomerKeyMD5) ∧
    (r1.SSEKMSEncryptionContext = r2.SSEKMSEncryptionContext → r1.ToInput.SSEKMSEncryptionContext = r2.ToInput.SSEKMSEncryptionContext) ∧
    (r1.SSEKMSKeyID = r2.SSEKMSKeyID → r1.ToInput.SSEKMSKeyId = r2.ToInput.SSEKMSKeyId) ∧
    (r1.WebsiteRedirectLocation = r2.WebsiteRedirectLocation → r1.ToInput.WebsiteRedirectLocation = r2.ToInput.WebsiteRedirectLocation) ∧
    (r1.CopySourceIfModifiedSince = r2.CopySourceIfModifiedSince → r1.ToInput.CopySourceIfModifiedSince = r2.ToInput.CopySourceIfModifiedSince) ∧
    (r1.CopySourceIfUnmodifiedSince = r2.CopySourceIfUnmodifiedSince → r1.ToInput.CopySourceIfUnmodifiedSince = r2.ToInput.CopySourceIfUnmodifiedSince) ∧
    (r1.Expires = r2.Expires → r1.ToInput.Expires = r2.ToInput.Expires) ∧
    (r1.ObjectLockRetainUntilDate = r2.ObjectLockRetainUntilDate → r1.ToInput.ObjectLockRetainUntilDate = r2.ToInput.ObjectLockRetainUntilDate) ∧
    (r1.ACL = r2.ACL → r1.ToInput.ACL = r2.ToInput.ACL) ∧
    (r1.MetadataDirective = r2.MetadataDirective → r1.ToInput.MetadataDirective = r2.ToInput.MetadataDirective) ∧
    (r1.ObjectLockLegalHoldStatus = r2.ObjectLockLegalHoldStatus → r1.ToInput.ObjectLockLegalHoldStatus = r2.ToInput.ObjectLockLegalHoldStatus) ∧
    (r1.ObjectLockMode = r2.ObjectLockMode → r1.ToInput.ObjectLockMode = r2.ToInput.ObjectLockMode) ∧
    (r1.RequestPayer = r2.RequestPayer → r1.ToInput.RequestPayer = r2.ToInput.RequestPayer) ∧
    (r1.ServerSideEncryption = r2.ServerSideEncryption → r1.ToInput.ServerSideEncryption = r2.ToInput.ServerSideEncryption) ∧
    (r1.StorageClass = r2.StorageClass → r1.ToInput.StorageClass = r2.ToInput.StorageClass) ∧
    (r1.TaggingDirective = r2.TaggingDirective → r1.ToInput.TaggingDirective = r2.ToInput.TaggingDirective) ∧
    (r1.Metadata = r2.Metadata → r1.ToInput.Metadata = r2.ToInput.Metadata) ∧
    (r1.Tagging = r2.Tagging →
      TagSlice.elems r1.TaggingTagSet = TagSlice.elems r2.TaggingTagSet →
      r1.ToInput.Tagging = r2.ToInput.Tagging) ∧
    (∀ (t : String) (ts : TagSlice),
      { CopyObjectRequest.ToInput { r1 with Tagging := t, TaggingTagSet := ts } with
          Tagging := r1.ToInput.Tagging } = r1.ToInput) := by
  refine ⟨?_, ?_, ?_, ?_, ?_, ?_, ?_, ?_, ?_, ?_, ?_, ?_, ?_, ?_, ?_, ?_, ?_, ?_, ?_, ?_, ?_, ?_, ?_, ?_, ?_, ?_, ?_, ?_, ?_, ?_, ?_, ?_, ?_, ?_, ?_, ?_, ?_, ?_⟩
  · intro h
    rw [ToInput_Bucket, ToInput_Bucket, h]
  · intro h
    rw [ToInput_Key, ToInput_Key, h]
  · intro h
    rw [ToInput_CopySource, ToInput_CopySource, h]
  · intro h
    rw [ToInput_CacheControl, ToInput_CacheControl, h]
  · intro h
    rw [ToInput_ContentDisposition, ToInput_ContentDisposition, h]
  · intro h
    rw [ToInput_ContentEncoding, ToInput_ContentEncoding, h]
  · intro h
    rw [ToInput_ContentLanguage, ToInput_ContentLanguage, h]
  · intro h
    rw [ToInput_ContentType, ToInput_ContentType, h]
  · intro h
    rw [ToInput_CopySourceIfMatch, ToInput_CopySourceIfMatch, h]
  · intro h
    rw [ToInput_CopySourceIfNoneMatch, ToInput_CopySourceIfNoneMatch, h]
  · intro h
    rw [ToInput_CopySourceSSECustomerAlgorithm, ToInput_CopySourceSSECustomerAlgorithm, h]
  · intro h
    rw [ToInput_CopySourceSSECustomerKey, ToInput_CopySourceSSECustomerKey, h]
  · intro h
    rw [ToInput_CopySourceSSECustomerKeyMD5, ToInput_CopySourceSSECustomerKeyMD5, h]
  · intro h
    rw [ToInput_GrantFullControl, ToInput_GrantFullControl, h]
  · intro h
    rw [ToInput_GrantRead, ToInput_GrantRead, h]
  · intro h
    rw [ToInput_GrantReadACP, ToInput_GrantReadACP, h]
  · intro h
    rw [ToInput_GrantWriteACP, ToInput_GrantWriteACP, h]
  · intro h
    rw [ToInput_SSECustomerAlgorithm, ToInput_SSECustomerAlgorithm, h]
  · intro h
    rw [ToInput_SSECustomerKey, ToInput_SSECustomerKey, h]
  · intro h
    rw [ToInput_SSECustomerKeyMD5, ToInput_SSECustomerKeyMD5, h]
  · intro h
    rw [ToInput_SSEKMSEncryptionContext, ToInput_SSEKMSEncryptionContext, h]
  · intro h
    rw [ToInput_SSEKMSKeyID, ToInput_SSEKMSKeyID, h]
  · intro h
    rw [ToInput_WebsiteRedirectLocation, ToInput_WebsiteRedirectLocation, h]
  · intro h
    rw [ToInput_CopySourceIfModifiedSince, ToInput_CopySourceIfModifiedSince, h]
  · intro h
    rw [ToInput_CopySourceIfUnmodifiedSince, ToInput_CopySourceIfUnmodifiedSince, h]
  · intro h
    rw [ToInput_Expires, ToInput_Expires, h]
  · intro h
    rw [ToInput_ObjectLockRetainUntilDate, ToInput_ObjectLockRetainUntilDate, h]
  · intro h
    rw [ToInput_ACL, ToInput_ACL, h]
  · intro h
    rw [ToInput_MetadataDirective, ToInput_MetadataDirective, h]
  · intro h
    rw [ToInput_ObjectLockLegalHoldStatus, ToInput_ObjectLockLegalHoldStatus, h]
  · intro h
    rw [ToInput_ObjectLockMode, ToInput_ObjectLockMode, h]
  · intro h
    rw [ToInput_RequestPayer, ToInput_RequestPayer, h]
  · intro h
    rw [ToInput_ServerSideEncryption, ToInput_ServerSideEncryption, h]
  · intro h
    rw [ToInput_StorageClass, ToInput_StorageClass, h]
  · intro h
    rw [ToInput_TaggingDirective, ToInput_TaggingDirective, h]
  · intro h
    rw [ToInput_Metadata, ToInput_Metadata, h]
  · intro h1 h2
    have htags : r1.tags = r2.tags := by
      simp only [CopyObjectRequest.tags, len_eq_length_elems, h1, h2]
    rw [ToInput_Tagging, ToInput_Tagging, htags]
  · intro t ts
    apply CopyObjectInput_eq_of_fields
    · show (CopyObjectRequest.ToInput { r1 with Tagging := t, TaggingTagSet := ts }).ACL = _
      rw [ToInput_ACL, ToInput_ACL]
    · show (CopyObjectRequest.ToInput { r1 with Tagging := t, TaggingTagSet := ts }).Bucket = _
      rw [ToInput_Bucket, ToInput_Bucket]
    · show (CopyObjectRequest.ToInput { r1 with Tagging := t, TaggingTagSet := ts }).CacheControl = _
      rw [ToInput_CacheControl, ToInput_CacheControl]
    · show (CopyObjectRequest.ToInput { r1 with Tagging := t, TaggingTagSet := ts }).ContentDisposition = _
      rw [ToInput_ContentDisposition, ToInput_ContentDisposition]
    · show (CopyObjectRequest.ToInput { r1 with Tagging := t, TaggingTagSet := ts }).ContentEncoding = _
      rw [ToInput_ContentEncoding, ToInput_ContentEncoding]
    · show (CopyObjectRequest.ToInput { r1 with Tagging := t, TaggingTagSet := ts }).ContentLanguage = _
      rw [ToInput_ContentLanguage, ToInput_ContentLanguage]
    · show (CopyObjectRequest.ToInput { r1 with Tagging := t, TaggingTagSet := ts }).ContentType = _
      rw [ToInput_ContentType, ToInput_ContentType]
    · show (CopyObjectRequest.ToInput { r1 with Tagging := t, TaggingTagSet := ts }).CopySource = _
      rw [ToInput_CopySource, ToInput_CopySource]
    · show (CopyObjectRequest.ToInput { r1 with Tagging := t, TaggingTagSet := ts }).CopySourceIfMatch = _
      rw [ToInput_CopySourceIfMatch, ToInput_CopySourceIfMatch]
    · show (CopyObjectRequest.ToInput { r1 with Tagging := t, TaggingTagSet := ts }).CopySourceIfModifiedSince = _
      rw [ToInput_CopySourceIfModifiedSince, ToInput_CopySourceIfModifiedSince]
    · show (CopyObjectRequest.ToInput { r1 with Tagging := t, TaggingTagSet := ts }).CopySourceIfNoneMatch = _
      rw [ToInput_CopySourceIfNoneMatch, ToInput_CopySourceIfNoneMatch]
    · show (CopyObjectRequest.ToInput { r1 with Tagging := t, TaggingTagSet := ts }).CopySourceIfUnmodifiedSince = _
      rw [ToInput_CopySourceIfUnmodifiedSince, ToInput_CopySourceIfUnmodifiedSince]
    · show (CopyObjectRequest.ToInput { r1 with Tagging := t, TaggingTagSet := ts }).CopySourceSSECustomerAlgorithm = _
      rw [ToInput_CopySourceSSECustomerAlgorithm, ToInput_CopySourceSSECustomerAlgorithm]
    · show (CopyObjectRequest.ToInput { r1 with Tagging := t, TaggingTagSet := ts }).CopySourceSSECustomerKey = _
      rw [ToInput_CopySourceSSECustomerKey, ToInput_CopySourceSSECustomerKey]
    · show (CopyObjectRequest.ToInput { r1 with Tagging := t, TaggingTagSet := ts }).CopySourceSSECustomerKeyMD5 = _
      rw [ToInput_CopySourceSSECustomerKeyMD5, ToInput_CopySourceSSECustomerKeyMD5]
    · show (CopyObjectRequest.ToInput { r1 with Tagging := t, TaggingTagSet := ts }).Expires = _
      rw [ToInput_Expires, ToInput_Expires]
    · show (CopyObjectRequest.ToInput { r1 with Tagging := t, TaggingTagSet := ts }).GrantFullControl = _
      rw [ToInput_GrantFullControl, ToInput_GrantFullControl]
    · show (CopyObjectRequest.ToInput { r1 with Tagging := t, TaggingTagSet := ts }).GrantRead = _
      rw [ToInput_GrantRead, ToInput_GrantRead]
    · show (CopyObjectRequest.ToInput { r1 with Tagging := t, TaggingTagSet := ts }).GrantReadACP = _
      rw [ToInput_GrantReadACP, ToInput_GrantReadACP]
    · show (CopyObjectRequest.ToInput { r1 with Tagging := t, TaggingTagSet := ts }).GrantWriteACP = _
      rw [ToInput_GrantWriteACP, ToInput_GrantWriteACP]
    · show (CopyObjectRequest.ToInput { r1 with Tagging := t, TaggingTagSet := ts }).Key = _
      rw [ToInput_Key, ToInput_Key]
    · show (CopyObjectRequest.ToInput { r1 with Tagging := t, TaggingTagSet := ts }).Metadata = _
      rw [ToInput_Metadata, ToInput_Metadata]
    · show (CopyObjectRequest.ToInput { r1 with Tagging := t, TaggingTagSet := ts }).MetadataDirective = _
      rw [ToInput_MetadataDirective, ToInput_MetadataDirective]
    · show (CopyObjectRequest.ToInput { r1 with Tagging := t, TaggingTagSet := ts }).ObjectLockLegalHoldStatus = _
      rw [ToInput_ObjectLockLegalHoldStatus, ToInput_ObjectLockLegalHoldStatus]
    · show (CopyObjectRequest.ToInput { r1 with Tagging := t, TaggingTagSet := ts }).ObjectLockMode = _
      rw [ToInput_ObjectLockMode, ToInput_ObjectLockMode]
    · show (CopyObjectRequest.ToInput { r1 with Tagging := t, TaggingTagSet := ts }).ObjectLockRetainUntilDate = _
      rw [ToInput_ObjectLockRetainUntilDate, ToInput_ObjectLockRetainUntilDate]
    · show (CopyObjectRequest.ToInput { r1 with Tagging := t, TaggingTagSet := ts }).RequestPayer = _
      rw [ToInput_RequestPayer, ToInput_RequestPayer]
    · show (CopyObjectRequest.ToInput { r1 with Tagging := t, TaggingTagSet := ts }).SSECustomerAlgorithm = _
      rw [ToInput_SSECustomerAlgorithm, ToInput_SSECustomerAlgorithm]
    · show (CopyObjectRequest.ToInput { r1 with Tagging := t, TaggingTagSet := ts }).SSECustomerKey = _
      rw [ToInput_SSECustomerKey, ToInput_SSECustomerKey]
    · show (CopyObjectRequest.ToInput { r1 with Tagging := t, TaggingTagSet := ts }).SSECustomerKeyMD5 = _
      rw [ToInput_SSECustomerKeyMD5, ToInput_SSECustomerKeyMD5]
    · show (CopyObjectRequest.ToInput { r1 with Tagging := t, TaggingTagSet := ts }).SSEKMSEncryptionContext = _
      rw [ToInput_SSEKMSEncryptionContext, ToInput_SSEKMSEncryptionContext]
    · show (CopyObjectRequest.ToInput { r1 with Tagging := t, TaggingTagSet := ts }).SSEKMSKeyId = _
      rw [ToInput_SSEKMSKeyID, ToInput_SSEKMSKeyID]
    · show (CopyObjectRequest.ToInput { r1 with Tagging := t, TaggingTagSet := ts }).ServerSideEncryption = _
      rw [ToInput_ServerSideEncryption, ToInput_ServerSideEncryption]
    · show (CopyObjectRequest.ToInput { r1 with Tagging := t, TaggingTagSet := ts }).StorageClass = _
      rw [ToInput_StorageClass, ToInput_StorageClass]
    · rfl
    · show (CopyObjectRequest.ToInput { r1 with Tagging := t, TaggingTagSet := ts }).TaggingDirective = _
      rw [ToInput_TaggingDirective, ToInput_TaggingDirective]
    · show (CopyObjectRequest.ToInput { r1 with Tagging := t, TaggingTagSet := ts }).WebsiteRedirectLocation = _
      rw [ToInput_WebsiteRedirectLocation, ToInput_WebsiteRedirectLocation]

theorem ToInput_field_independence_witness :
    (({ Bucket := "b", Expires := { sec := 5, nsec := 0, loc := 0 }, Tagging := "a=1" } : CopyObjectRequest).Bucket
        = ({ Bucket := "b", Expires := { sec := 5, nsec := 0, loc := 0 }, TaggingTagSet := some [⟨"x", "y"⟩] } : CopyObjectRequest).Bucket ∧
      (CopyObjectRequest.ToInput { Bucket := "b", Expires := { sec := 5, nsec := 0, loc := 0 }, Tagging := "a=1" }).Bucket
        = (CopyObjectRequest.ToInput { Bucket := "b", Expires := { sec := 5, nsec := 0, loc := 0 }, TaggingTagSet := some [⟨"x", "y"⟩] }).Bucket) ∧
    (({ Bucket := "b", Expires := { sec := 5, nsec := 0, loc := 0 }, Tagging := "a=1" } : CopyObjectRequest).Key
        = ({ Bucket := "b", Expires := { sec := 5, nsec := 0, loc := 0 }, TaggingTagSet := some [⟨"x", "y"⟩] } : CopyObjectRequest).Key ∧
      (CopyObjectRequest.ToInput { Bucket := "b", Expires := { sec := 5, nsec := 0, loc := 0 }, Tagging := "a=1" }).Key
        = (CopyObjectRequest.ToInput { Bucket := "b", Expires := { sec := 5, nsec := 0, loc := 0 }, TaggingTagSet := some [⟨"x", "y"⟩] }).Key) ∧
    (({ Bucket := "b", Expires := { sec := 5, nsec := 0, loc := 0 }, Tagging := "a=1" } : CopyObjectRequest).CopySource
        = ({ Bucket := "b", Expires := { sec := 5, nsec := 0, loc := 0 }, TaggingTagSet := some [⟨"x", "y"⟩] } : CopyObjectRequest).CopySource ∧
      (CopyObjectRequest.ToInput { Bucket := "b", Expires := { sec := 5, nsec := 0, loc := 0 }, Tagging := "a=1" }).CopySource
        = (CopyObjectRequest.ToInput { Bucket := "b", Expires := { sec := 5, nsec := 0, loc := 0 }, TaggingTagSet := some [⟨"x", "y"⟩] }).CopySource) ∧
    (({ Bucket := "b", Expires := { sec := 5, nsec := 0, loc := 0 }, Tagging := "a=1" } : CopyObjectRequest).CacheControl
        = ({ Bucket := "b", Expires := { sec := 5, nsec := 0, loc := 0 }, TaggingTagSet := some [⟨"x", "y"⟩] } : CopyObjectRequest).CacheControl ∧
      (CopyObjectRequest.ToInput { Bucket := "b", Expires := { sec := 5, nsec := 0, loc := 0 }, Tagging := "a=1" }).CacheControl
        = (CopyObjectRequest.ToInput { Bucket := "b", Expires := { sec := 5, nsec := 0, loc := 0 }, TaggingTagSet := some [⟨"x", "y"⟩] }).CacheControl) ∧
    (({ Bucket := "b", Expires := { sec := 5, nsec := 0, loc := 0 }, Tagging := "a=1" } : CopyObjectRequest).ContentDisposition
        = ({ Bucket := "b", Expires := { sec := 5, nsec := 0, loc := 0 }, TaggingTagSet := some [⟨"x", "y"⟩] } : CopyObjectRequest).ContentDisposition ∧
      (CopyObjectRequest.ToInput { Bucket := "b", Expires := { sec := 5, nsec := 0, loc := 0 }, Tagging := "a=1" }).ContentDisposition
        = (CopyObjectRequest.ToInput { Bucket := "b", Expires := { sec := 5, nsec := 0, loc := 0 }, TaggingTagSet := some [⟨"x", "y"⟩] }).ContentDisposition) ∧
    (({ Bucket := "b", Expires := { sec := 5, nsec := 0, loc := 0 }, Tagging := "a=1" } : CopyObjectRequest).ContentEncoding
        = ({ Bucket := "b", Expires := { sec := 5, nsec := 0, loc := 0 }, TaggingTagSet := some [⟨"x", "y"⟩] } : CopyObjectRequest).ContentEncoding ∧
      (CopyObjectRequest.ToInput { Bucket := "b", Expires := { sec := 5, nsec := 0, loc := 0 }, Tagging := "a=1" }).ContentEncoding
        = (CopyObjectRequest.ToInput { Bucket := "b", Expires := { sec := 5, nsec := 0, loc := 0 }, TaggingTagSet := some [⟨"x", "y"⟩] }).ContentEncoding) ∧
    (({ Bucket := "b", Expires := { sec := 5, nsec := 0, loc := 0 }, Tagging := "a=1" } : CopyObjectRequest).ContentLanguage
        = ({ Bucket := "b", Expires := { sec := 5, nsec := 0, loc := 0 }, TaggingTagSet := some [⟨"x", "y"⟩] } : CopyObjectRequest).ContentLanguage ∧
      (CopyObjectRequest.ToInput { Bucket := "b", Expires := { sec := 5, nsec := 0, loc := 0 }, Tagging := "a=1" }).ContentLanguage
        = (CopyObjectRequest.ToInput { Bucket := "b", Expires := { sec := 5, nsec := 0, loc := 0 }, TaggingTagSet := some [⟨"x", "y"⟩] }).ContentLanguage) ∧
    (({ Bucket := "b", Expires := { sec := 5, nsec := 0, loc := 0 }, Tagging := "a=1" } : CopyObjectRequest).ContentType
        = ({ Bucket := "b", Expires := { sec := 5, nsec := 0, loc := 0 }, TaggingTagSet := some [⟨"x", "y"⟩] } : CopyObjectRequest).ContentType ∧
      (CopyObjectRequest.ToInput { Bucket := "b", Expires := { sec := 5, nsec := 0, loc := 0 }, Tagging := "a=1" }).ContentType
        = (CopyObjectRequest.ToInput { Bucket := "b", Expires := { sec := 5, nsec := 0, loc := 0 }, TaggingTagSet := some [⟨"x", "y"⟩] }).ContentType) ∧
    (({ Bucket := "b", Expires := { sec := 5, nsec := 0, loc := 0 }, Tagging := "a=1" } : CopyObjectRequest).CopySourceIfMatch
        = ({ Bucket := "b", Expires := { sec := 5, nsec := 0, loc := 0 }, TaggingTagSet := some [⟨"x", "y"⟩] } : CopyObjectRequest).CopySourceIfMatch ∧
      (CopyObjectRequest.ToInput { Bucket := "b", Expires := { sec := 5, nsec := 0, loc := 0 }, Tagging := "a=1" }).CopySourceIfMatch
        = (CopyObjectRequest.ToInput { Bucket := "b", Expires := { sec := 5, nsec := 0, loc := 0 }, TaggingTagSet := some [⟨"x", "y"⟩] }).CopySourceIfMatch) ∧
    (({ Bucket := "b", Expires := { sec := 5, nsec := 0, loc := 0 }, Tagging := "a=1" } : CopyObjectRequest).CopySourceIfNoneMatch
        = ({ Bucket := "b", Expires := { sec := 5, nsec := 0, loc := 0 }, TaggingTagSet := some [⟨"x", "y"⟩] } : CopyObjectRequest).CopySourceIfNoneMatch ∧
      (CopyObjectRequest.ToInput { Bucket := "b", Expires := { sec := 5, nsec := 0, loc := 0 }, Tagging := "a=1" }).CopySourceIfNoneMatch
        = (CopyObjectRequest.ToInput { Bucket := "b", Expires := { sec := 5, nsec := 0, loc := 0 }, TaggingTagSet := some [⟨"x", "y"⟩] }).CopySourceIfNoneMatch) ∧
    (({ Bucket := "b", Expires := { sec := 5, nsec := 0, loc := 0 }, Tagging := "a=1" } : CopyObjectRequest).CopySourceSSECustomerAlgorithm
        = ({ Bucket := "b", Expires := { sec := 5, nsec := 0, loc := 0 }, TaggingTagSet := some [⟨"x", "y"⟩] } : CopyObjectRequest).CopySourceSSECustomerAlgorithm ∧
      (CopyObjectRequest.ToInput { Bucket := "b", Expires := { sec := 5, nsec := 0, loc := 0 }, Tagging := "a=1" }).CopySourceSSECustomerAlgorithm
        = (CopyObjectRequest.ToInput { Bucket := "b", Expires := { sec := 5, nsec := 0, loc := 0 }, TaggingTagSet := some [⟨"x", "y"⟩] }).CopySourceSSECustomerAlgorithm) ∧
    (({ Bucket := "b", Expires := { sec := 5, nsec := 0, loc := 0 }, Tagging := "a=1" } : CopyObjectRequest).CopySourceSSECustomerKey
        = ({ Bucket := "b", Expires := { sec := 5, nsec := 0, loc := 0 }, TaggingTagSet := some [⟨"x", "y"⟩] } : CopyObjectRequest).CopySourceSSECustomerKey ∧
      (CopyObjectRequest.ToInput { Bucket := "b", Expires := { sec := 5, nsec := 0, loc := 0 }, Tagging := "a=1" }).CopySourceSSECustomerKey
        = (CopyObjectRequest.ToInput { Bucket := "b", Expires := { sec := 5, nsec := 0, loc := 0 }, TaggingTagSet := some [⟨"x", "y"⟩] }).CopySourceSSECustomerKey) ∧
    (({ Bucket := "b", Expires := { sec := 5, nsec := 0, loc := 0 }, Tagging := "a=1" } : CopyObjectRequest).CopySourceSSECustomerKeyMD5
        = ({ Bucket := "b", Expires := { sec := 5, nsec := 0, loc := 0 }, TaggingTagSet := some [⟨"x", "y"⟩] } : CopyObjectRequest).CopySourceSSECustomerKeyMD5 ∧
      (CopyObjectRequest.ToInput { Bucket := "b", Expires := { sec := 5, nsec := 0, loc := 0 }, Tagging := "a=1" }).CopySourceSSECustomerKeyMD5
        = (CopyObjectRequest.ToInput { Bucket := "b", Expires := { sec := 5, nsec := 0, loc := 0 }, TaggingTagSet := some [⟨"x", "y"⟩] }).CopySourceSSECustomerKeyMD5) ∧
    (({ Bucket := "b", Expires := { sec := 5, nsec := 0, loc := 0 }, Tagging := "a=1" } : CopyObjectRequest).GrantFullControl
        = ({ Bucket := "b", Expires := { sec := 5, nsec := 0, loc := 0 }, TaggingTagSet := some [⟨"x", "y"⟩] } : CopyObjectRequest).GrantFullControl ∧
      (CopyObjectRequest.ToInput { Bucket := "b", Expires := { sec := 5, nsec := 0, loc := 0 }, Tagging := "a=1" }).GrantFullControl
        = (CopyObjectRequest.ToInput { Bucket := "b", Expires := { sec := 5, nsec := 0, loc := 0 }, TaggingTagSet := some [⟨"x", "y"⟩] }).GrantFullControl) ∧
    (({ Bucket := "b", Expires := { sec := 5, nsec := 0, loc := 0 }, Tagging := "a=1" } : CopyObjectRequest).GrantRead
        = ({ Bucket := "b", Expires := { sec := 5, nsec := 0, loc := 0 }, TaggingTagSet := some [⟨"x", "y"⟩] } : CopyObjectRequest).GrantRead ∧
      (CopyObjectRequest.ToInput { Bucket := "b", Expires := { sec := 5, nsec := 0, loc := 0 }, Tagging := "a=1" }).GrantRead
        = (CopyObjectRequest.ToInput { Bucket := "b", Expires := { sec := 5, nsec := 0, loc := 0 }, TaggingTagSet := some [⟨"x", "y"⟩] }).GrantRead) ∧
    (({ Bucket := "b", Expires := { sec := 5, nsec := 0, loc := 0 }, Tagging := "a=1" } : CopyObjectRequest).GrantReadACP
        = ({ Bucket := "b", Expires := { sec := 5, nsec := 0, loc := 0 }, TaggingTagSet := some [⟨"x", "y"⟩] } : CopyObjectRequest).GrantReadACP ∧
      (CopyObjectRequest.ToInput { Bucket := "b", Expires := { sec := 5, nsec := 0, loc := 0 }, Tagging := "a=1" }).GrantReadACP
        = (CopyObjectRequest.ToInput { Bucket := "b", Expires := { sec := 5, nsec := 0, loc := 0 }, TaggingTagSet := some [⟨"x", "y"⟩] }).GrantReadACP) ∧
    (({ Bucket := "b", Expires := { sec := 5, nsec := 0, loc := 0 }, Tagging := "a=1" } : CopyObjectRequest).GrantWriteACP
        = ({ Bucket := "b", Expires := { sec := 5, nsec := 0, loc := 0 }, TaggingTagSet := some [⟨"x", "y"⟩] } : CopyObjectRequest).GrantWriteACP ∧
      (CopyObjectRequest.ToInput { Bucket := "b", Expires := { sec := 5, nsec := 0, loc := 0 }, Tagging := "a=1" }).GrantWriteACP
        = (CopyObjectRequest.ToInput { Bucket := "b", Expires := { sec := 5, nsec := 0, loc := 0 }, TaggingTagSet := some [⟨"x", "y"⟩] }).GrantWriteACP) ∧
    (({ Bucket := "b", Expires := { sec := 5, nsec := 0, loc := 0 }, Tagging := "a=1" } : CopyObjectRequest).SSECustomerAlgorithm
        = ({ Bucket := "b", Expires := { sec := 5, nsec := 0, loc := 0 }, TaggingTagSet := some [⟨"x", "y"⟩] } : CopyObjectRequest).SSECustomerAlgorithm ∧
      (CopyObjectRequest.ToInput { Bucket := "b", Expires := { sec := 5, nsec := 0, loc := 0 }, Tagging := "a=1" }).SSECustomerAlgorithm
        = (CopyObjectRequest.ToInput { Bucket := "b", Expires := { sec := 5, nsec := 0, loc := 0 }, TaggingTagSet := some [⟨"x", "y"⟩] }).SSECustomerAlgorithm) ∧
    (({ Bucket := "b", Expires := { sec := 5, nsec := 0, loc := 0 }, Tagging := "a=1" } : CopyObjectRequest).SSECustomerKey
        = ({ Bucket := "b", Expires := { sec := 5, nsec := 0, loc := 0 }, TaggingTagSet := some [⟨"x", "y"⟩] } : CopyObjectRequest).SSECustomerKey ∧
      (CopyObjectRequest.ToInput { Bucket := "b", Expires := { sec := 5, nsec := 0, loc := 0 }, Tagging := "a=1" }).SSECustomerKey
        = (CopyObjectRequest.ToInput { Bucket := "b", Expires := { sec := 5, nsec := 0, loc := 0 }, TaggingTagSet := some [⟨"x", "y"⟩] }).SSECustomerKey) ∧
    (({ Bucket := "b", Expires := { sec := 5, nsec := 0, loc := 0 }, Tagging := "a=1" } : CopyObjectRequest).SSECustomerKeyMD5
        = ({ Bucket := "b", Expires := { sec := 5, nsec := 0, loc := 0 }, TaggingTagSet := some [⟨"x", "y"⟩] } : CopyObjectRequest).SSECustomerKeyMD5 ∧
      (CopyObjectRequest.ToInput { Bucket := "b", Expires := { sec := 5, nsec := 0, loc := 0 }, Tagging := "a=1" }).SSECustomerKeyMD5
        = (CopyObjectRequest.ToInput { Bucket := "b", Expires := { sec := 5, nsec := 0, loc := 0 }, TaggingTagSet := some [⟨"x", "y"⟩] }).SSECustomerKeyMD5) ∧
    (({ Bucket := "b", Expires := { sec := 5, nsec := 0, loc := 0 }, Tagging := "a=1" } : CopyObjectRequest).SSEKMSEncryptionContext
        = ({ Bucket := "b", Expires := { sec := 5, nsec := 0, loc := 0 }, TaggingTagSet := some [⟨"x", "y"⟩] } : CopyObjectRequest).SSEKMSEncryptionContext ∧
      (CopyObjectRequest.ToInput { Bucket := "b", Expires := { sec := 5, nsec := 0, loc := 0 }, Tagging := "a=1" }).SSEKMSEncryptionContext
        = (CopyObjectRequest.ToInput { Bucket := "b", Expires := { sec := 5, nsec := 0, loc := 0 }, TaggingTagSet := some [⟨"x", "y"⟩] }).SSEKMSEncryptionContext) ∧
    (({ Bucket := "b", Expires := { sec := 5, nsec := 0, loc := 0 }, Tagging := "a=1" } : CopyObjectRequest).SSEKMSKeyID
        = ({ Bucket := "b", Expires := { sec := 5, nsec := 0, loc := 0 }, TaggingTagSet := some [⟨"x", "y"⟩] } : CopyObjectRequest).SSEKMSKeyID ∧
      (CopyObjectRequest.ToInput { Bucket := "b", Expires := { sec := 5, nsec := 0, loc := 0 }, Tagging := "a=1" }).SSEKMSKeyId
        = (CopyObjectRequest.ToInput { Bucket := "b", Expires := { sec := 5, nsec := 0, loc := 0 }, TaggingTagSet := some [⟨"x", "y"⟩] }).SSEKMSKeyId) ∧
    (({ Bucket := "b", Expires := { sec := 5, nsec := 0, loc := 0 }, Tagging := "a=1" } : CopyObjectRequest).WebsiteRedirectLocation
        = ({ Bucket := "b", Expires := { sec := 5, nsec := 0, loc := 0 }, TaggingTagSet := some [⟨"x", "y"⟩] } : CopyObjectRequest).WebsiteRedirectLocation ∧
      (CopyObjectRequest.ToInput { Bucket := "b", Expires := { sec := 5, nsec := 0, loc := 0 }, Tagging := "a=1" }).WebsiteRedirectLocation
        = (CopyObjectRequest.ToInput { Bucket := "b", Expires := { sec := 5, nsec := 0, loc := 0 }, TaggingTagSet := some [⟨"x", "y"⟩] }).WebsiteRedirectLocation) ∧
    (({ Bucket := "b", Expires := { sec := 5, nsec := 0, loc := 0 }, Tagging := "a=1" } : CopyObjectRequest).CopySourceIfModifiedSince
        = ({ Bucket := "b", Expires := { sec := 5, nsec := 0, loc := 0 }, TaggingTagSet := some [⟨"x", "y"⟩] } : CopyObjectRequest).CopySourceIfModifiedSince ∧
      (CopyObjectRequest.ToInput { Bucket := "b", Expires := { sec := 5, nsec := 0, loc := 0 }, Tagging := "a=1" }).CopySourceIfModifiedSince
        = (CopyObjectRequest.ToInput { Bucket := "b", Expires := { sec := 5, nsec := 0, loc := 0 }, TaggingTagSet := some [⟨"x", "y"⟩] }).CopySourceIfModifiedSince) ∧
    (({ Bucket := "b", Expires := { sec := 5, nsec := 0, loc := 0 }, Tagging := "a=1" } : CopyObjectRequest).CopySourceIfUnmodifiedSince
        = ({ Bucket := "b", Expires := { sec := 5, nsec := 0, loc := 0 }, TaggingTagSet := some [⟨"x", "y"⟩] } : CopyObjectRequest).CopySourceIfUnmodifiedSince ∧
      (CopyObjectRequest.ToInput { Bucket := "b", Expires := { sec := 5, nsec := 0, loc := 0 }, Tagging := "a=1" }).CopySourceIfUnmodifiedSince
        = (CopyObjectRequest.ToInput { Bucket := "b", Expires := { sec := 5, nsec := 0, loc := 0 }, TaggingTagSet := some [⟨"x", "y"⟩] }).CopySourceIfUnmodifiedSince) ∧
    (({ Bucket := "b", Expires := { sec := 5, nsec := 0, loc := 0 }, Tagging := "a=1" } : CopyObjectRequest).Expires
        = ({ Bucket := "b", Expires := { sec := 5, nsec := 0, loc := 0 }, TaggingTagSet := some [⟨"x", "y"⟩] } : CopyObjectRequest).Expires ∧
      (CopyObjectRequest.ToInput { Bucket := "b", Expires := { sec := 5, nsec := 0, loc := 0 }, Tagging := "a=1" }).Expires
        = (CopyObjectRequest.ToInput { Bucket := "b", Expires := { sec := 5, nsec := 0, loc := 0 }, TaggingTagSet := some [⟨"x", "y"⟩] }).Expires) ∧
    (({ Bucket := "b", Expires := { sec := 5, nsec := 0, loc := 0 }, Tagging := "a=1" } : CopyObjectRequest).ObjectLockRetainUntilDate
        = ({ Bucket := "b", Expires := { sec := 5, nsec := 0, loc := 0 }, TaggingTagSet := some [⟨"x", "y"⟩] } : CopyObjectRequest).ObjectLockRetainUntilDate ∧
      (CopyObjectRequest.ToInput { Bucket := "b", Expires := { sec := 5, nsec := 0, loc := 0 }, Tagging := "a=1" }).ObjectLockRetainUntilDate
        = (CopyObjectRequest.ToInput { Bucket := "b", Expires := { sec := 5, nsec := 0, loc := 0 }, TaggingTagSet := some [⟨"x", "y"⟩] }).ObjectLockRetainUntilDate) ∧
    (({ Bucket := "b", Expires := { sec := 5, nsec := 0, loc := 0 }, Tagging := "a=1" } : CopyObjectRequest).ACL
        = ({ Bucket := "b", Expires := { sec := 5, nsec := 0, loc := 0 }, TaggingTagSet := some [⟨"x", "y"⟩] } : CopyObjectRequest).ACL ∧
      (CopyObjectRequest.ToInput { Bucket := "b", Expires := { sec := 5, nsec := 0, loc := 0 }, Tagging := "a=1" }).ACL
        = (CopyObjectRequest.ToInput { Bucket := "b", Expires := { sec := 5, nsec := 0, loc := 0 }, TaggingTagSet := some [⟨"x", "y"⟩] }).ACL) ∧
    (({ Bucket := "b", Expires := { sec := 5, nsec := 0, loc := 0 }, Tagging := "a=1" } : CopyObjectRequest).MetadataDirective
        = ({ Bucket := "b", Expires := { sec := 5, nsec := 0, loc := 0 }, TaggingTagSet := some [⟨"x", "y"⟩] } : CopyObjectRequest).MetadataDirective ∧
      (CopyObjectRequest.ToInput { Bucket := "b", Expires := { sec := 5, nsec := 0, loc := 0 }, Tagging := "a=1" }).MetadataDirective
        = (CopyObjectRequest.ToInput { Bucket := "b", Expires := { sec := 5, nsec := 0, loc := 0 }, TaggingTagSet := some [⟨"x", "y"⟩] }).MetadataDirective) ∧
    (({ Bucket := "b", Expires := { sec := 5, nsec := 0, loc := 0 }, Tagging := "a=1" } : CopyObjectRequest).ObjectLockLegalHoldStatus
        = ({ Bucket := "b", Expires := { sec := 5, nsec := 0, loc := 0 }, TaggingTagSet := some [⟨"x", "y"⟩] } : CopyObjectRequest).ObjectLockLegalHoldStatus ∧
      (CopyObjectRequest.ToInput { Bucket := "b", Expires := { sec := 5, nsec := 0, loc := 0 }, Tagging := "a=1" }).ObjectLockLegalHoldStatus
        = (CopyObjectRequest.ToInput { Bucket := "b", Expires := { sec := 5, nsec := 0, loc := 0 }, TaggingTagSet := some [⟨"x", "y"⟩] }).ObjectLockLegalHoldStatus) ∧
    (({ Bucket := "b", Expires := { sec := 5, nsec := 0, loc := 0 }, Tagging := "a=1" } : CopyObjectRequest).ObjectLockMode
        = ({ Bucket := "b", Expires := { sec := 5, nsec := 0, loc := 0 }, TaggingTagSet := some [⟨"x", "y"⟩] } : CopyObjectRequest).ObjectLockMode ∧
      (CopyObjectRequest.ToInput { Bucket := "b", Expires := { sec := 5, nsec := 0, loc := 0 }, Tagging := "a=1" }).ObjectLockMode
        = (CopyObjectRequest.ToInput { Bucket := "b", Expires := { sec := 5, nsec := 0, loc := 0 }, TaggingTagSet := some [⟨"x", "y"⟩] }).ObjectLockMode) ∧
    (({ Bucket := "b", Expires := { sec := 5, nsec := 0, loc := 0 }, Tagging := "a=1" } : CopyObjectRequest).RequestPayer
        = ({ Bucket := "b", Expires := { sec := 5, nsec := 0, loc := 0 }, TaggingTagSet := some [⟨"x", "y"⟩] } : CopyObjectRequest).RequestPayer ∧
      (CopyObjectRequest.ToInput { Bucket := "b", Expires := { sec := 5, nsec := 0, loc := 0 }, Tagging := "a=1" }).RequestPayer
        = (CopyObjectRequest.ToInput { Bucket := "b", Expires := { sec := 5, nsec := 0, loc := 0 }, TaggingTagSet := some [⟨"x", "y"⟩] }).RequestPayer) ∧
    (({ Bucket := "b", Expires := { sec := 5, nsec := 0, loc := 0 }, Tagging := "a=1" } : CopyObjectRequest).ServerSideEncryption
        = ({ Bucket := "b", Expires := { sec := 5, nsec := 0, loc := 0 }, TaggingTagSet := some [⟨"x", "y"⟩] } : CopyObjectRequest).ServerSideEncryption ∧
      (CopyObjectRequest.ToInput { Bucket := "b", Expires := { sec := 5, nsec := 0, loc := 0 }, Tagging := "a=1" }).ServerSideEncryption
        = (CopyObjectRequest.ToInput { Bucket := "b", Expires := { sec := 5, nsec := 0, loc := 0 }, TaggingTagSet := some [⟨"x", "y"⟩] }).ServerSideEncryption) ∧
    (({ Bucket := "b", Expires := { sec := 5, nsec := 0, loc := 0 }, Tagging := "a=1" } : CopyObjectRequest).StorageClass
        = ({ Bucket := "b", Expires := { sec := 5, nsec := 0, loc := 0 }, TaggingTagSet := some [⟨"x", "y"⟩] } : CopyObjectRequest).StorageClass ∧
      (CopyObjectRequest.ToInput { Bucket := "b", Expires := { sec := 5, nsec := 0, loc := 0 }, Tagging := "a=1" }).StorageClass
        = (CopyObjectRequest.ToInput { Bucket := "b", Expires := { sec := 5, nsec := 0, loc := 0 }, TaggingTagSet := some [⟨"x", "y"⟩] }).StorageClass) ∧
    (({ Bucket := "b", Expires := { sec := 5, nsec := 0, loc := 0 }, Tagging := "a=1" } : CopyObjectRequest).TaggingDirective
        = ({ Bucket := "b", Expires := { sec := 5, nsec := 0, loc := 0 }, TaggingTagSet := some [⟨"x", "y"⟩] } : CopyObjectRequest).TaggingDirective ∧
      (CopyObjectRequest.ToInput { Bucket := "b", Expires := { sec := 5, nsec := 0, loc := 0 }, Tagging := "a=1" }).TaggingDirective
        = (CopyObjectRequest.ToInput { Bucket := "b", Expires := { sec := 5, nsec := 0, loc := 0 }, TaggingTagSet := some [⟨"x", "y"⟩] }).TaggingDirective) ∧
    (({ Bucket := "b", Expires := { sec := 5, nsec := 0, loc := 0 }, Tagging := "a=1" } : CopyObjectRequest).Metadata
        = ({ Bucket := "b", Expires := { sec := 5, nsec := 0, loc := 0 }, TaggingTagSet := some [⟨"x", "y"⟩] } : CopyObjectRequest).Metadata ∧
      (CopyObjectRequest.ToInput { Bucket := "b", Expires := { sec := 5, nsec := 0, loc := 0 }, Tagging := "a=1" }).Metadata
        = (CopyObjectRequest.ToInput { Bucket := "b", Expires := { sec := 5, nsec := 0, loc := 0 }, TaggingTagSet := some [⟨"x", "y"⟩] }).Metadata) ∧
    (({ Bucket := "b", Expires := { sec := 5, nsec := 0, loc := 0 }, Tagging := "a=1" } : CopyObjectRequest).Tagging
        = ({ Bucket := "c", Key := "k", Tagging := "a=1", TaggingTagSet := some [] } : CopyObjectRequest).Tagging ∧
      TagSlice.elems ({ Bucket := "b", Expires := { sec := 5, nsec := 0, loc := 0 }, Tagging := "a=1" } : CopyObjectRequest).TaggingTagSet
        = TagSlice.elems ({ Bucket := "c", Key := "k", Tagging := "a=1", TaggingTagSet := some [] } : CopyObjectRequest).TaggingTagSet ∧
      (CopyObjectRequest.ToInput { Bucket := "b", Expires := { sec := 5, nsec := 0, loc := 0 }, Tagging := "a=1" }).Tagging
        = (CopyObjectRequest.ToInput { Bucket := "c", Key := "k", Tagging := "a=1", TaggingTagSet := some [] }).Tagging) := by
  obtain ⟨h0, h1, h2, h3, h4, h5, h6, h7, h8, h9, h10, h11, h12, h13, h14, h15, h16, h17, h18, h19, h20, h21, h22, h23, h24, h25, h26, h27, h28, h29, h30, h31, h32, h33, h34, h35, _, _⟩ :=
    ToInput_field_independence { Bucket := "b", Expires := { sec := 5, nsec := 0, loc := 0 }, Tagging := "a=1" }
      { Bucket := "b", Expires := { sec := 5, nsec := 0, loc := 0 }, TaggingTagSet := some [⟨"x", "y"⟩] }
  refine ⟨⟨rfl, h0 rfl⟩, ⟨rfl, h1 rfl⟩, ⟨rfl, h2 rfl⟩, ⟨rfl, h3 rfl⟩, ⟨rfl, h4 rfl⟩, ⟨rfl, h5 rfl⟩, ⟨rfl, h6 rfl⟩, ⟨rfl, h7 rfl⟩, ⟨rfl, h8 rfl⟩, ⟨rfl, h9 rfl⟩, ⟨rfl, h10 rfl⟩, ⟨rfl, h11 rfl⟩, ⟨rfl, h12 rfl⟩, ⟨rfl, h13 rfl⟩, ⟨rfl, h14 rfl⟩, ⟨rfl, h15 rfl⟩, ⟨rfl, h16 rfl⟩, ⟨rfl, h17 rfl⟩, ⟨rfl, h18 rfl⟩, ⟨rfl, h19 rfl⟩, ⟨rfl, h20 rfl⟩, ⟨rfl, h21 rfl⟩, ⟨rfl, h22 rfl⟩, ⟨rfl, h23 rfl⟩, ⟨rfl, h24 rfl⟩, ⟨rfl, h25 rfl⟩, ⟨rfl, h26 rfl⟩, ⟨rfl, h27 rfl⟩, ⟨rfl, h28 rfl⟩, ⟨rfl, h29 rfl⟩, ⟨rfl, h30 rfl⟩, ⟨rfl, h31 rfl⟩, ⟨rfl, h32 rfl⟩, ⟨rfl, h33 rfl⟩, ⟨rfl, h34 rfl⟩, ⟨rfl, h35 rfl⟩, rfl, rfl, ?_⟩
  exact (ToInput_field_independence { Bucket := "b", Expires := { sec := 5, nsec := 0, loc := 0 }, Tagging := "a=1" }
    { Bucket := "c", Key := "k", Tagging := "a=1", TaggingTagSet := some [] }).2.2.2.2.2.2.2.2.2.2.2.2.2.2.2.2.2.2.2.2.2.2.2.2.2.2.2.2.2.2.2.2.2.2.2.2.1 rfl rfl

/-! ## No sentinel in the input -/

theorem presentNonEmpty_ite (s : String) :
    PresentNonEmpty (if s ≠ "" then some s else none) := by
  intro v hv
  by_cases h : s = ""
  · simp [h] at hv
  · simp only [ne_eq, h, not_false_eq_true, if_true, Option.some.injEq] at hv
    rw [← hv]
    exact h

theorem presentNonZero_ite (t : Time) :
    PresentNonZero (if (!t.IsZero) = true then some t else none) := by
  intro v hv
  cases h : t.IsZero
  · simp only [h, Bool.not_false, if_true, Option.some.injEq] at hv
    rw [← hv]
    exact h
  · simp [h] at hv

/-- C14: no optional field of the input is present with a sentinel value:
every present string field, Tagging included, holds a non-empty string, and
every present time field holds a time that is not the zero time. -/
theorem ToInput_no_sentinel (r : CopyObjectRequest) :
    PresentNonEmpty r.ToInput.Bucket ∧
    PresentNonEmpty r.ToInput.Key ∧
    PresentNonEmpty r.ToInput.CopySource ∧
    PresentNonEmpty r.ToInput.CacheControl ∧
    PresentNonEmpty r.ToInput.ContentDisposition ∧
    PresentNonEmpty r.ToInput.ContentEncoding ∧
    PresentNonEmpty r.ToInput.ContentLanguage ∧
    PresentNonEmpty r.ToInput.ContentType ∧
    PresentNonEmpty r.ToInput.CopySourceIfMatch ∧
    PresentNonEmpty r.ToInput.CopySourceIfNoneMatch ∧
    PresentNonEmpty r.ToInput.CopySourceSSECustomerAlgorithm ∧
    PresentNonEmpty r.ToInput.CopySourceSSECustomerKey ∧
    PresentNonEmpty r.ToInput.CopySourceSSECustomerKeyMD5 ∧
    PresentNonEmpty r.ToInput.GrantFullControl ∧
    PresentNonEmpty r.ToInput.GrantRead ∧
    PresentNonEmpty r.ToInput.GrantReadACP ∧
    PresentNonEmpty r.ToInput.GrantWriteACP ∧
    PresentNonEmpty r.ToInput.SSECustomerAlgorithm ∧
    PresentNonEmpty r.ToInput.SSECustomerKey ∧
    PresentNonEmpty r.ToInput.SSECustomerKeyMD5 ∧
    PresentNonEmpty r.ToInput.SSEKMSEncryptionContext ∧
    PresentNonEmpty r.ToInput.SSEKMSKeyId ∧
    PresentNonEmpty r.ToInput.WebsiteRedirectLocation ∧
    PresentNonEmpty r.ToInput.Tagging ∧
    PresentNonZero r.ToInput.CopySourceIfModifiedSince ∧
    PresentNonZero r.ToInput.CopySourceIfUnmodifiedSince ∧
    PresentNonZero r.ToInput.Expires ∧
    PresentNonZero r.ToInput.ObjectLockRetainUntilDate := by
  rw [ToInput_Bucket, ToInput_Key, ToInput_CopySource, ToInput_CacheControl, ToInput_ContentDisposition, ToInput_ContentEncoding, ToInput_ContentLanguage, ToInput_ContentType, ToInput_CopySourceIfMatch, ToInput_CopySourceIfNoneMatch, ToInput_CopySourceSSECustomerAlgorithm, ToInput_CopySourceSSECustomerKey, ToInput_CopySourceSSECustomerKeyMD5, ToInput_GrantFullControl, ToInput_GrantRead, ToInput_GrantReadACP, ToInput_GrantWriteACP, ToInput_SSECustomerAlgorithm, ToInput_SSECustomerKey, ToInput_SSECustomerKeyMD5, ToInput_SSEKMSEncryptionContext, ToInput_SSEKMSKeyID, ToInput_WebsiteRedirectLocation, ToInput_Tagging, ToInput_CopySourceIfModifiedSince, ToInput_CopySourceIfUnmodifiedSince, ToInput_Expires, ToInput_ObjectLockRetainUntilDate]
  exact ⟨presentNonEmpty_ite _, presentNonEmpty_ite _, presentNonEmpty_ite _, presentNonEmpty_ite _, presentNonEmpty_ite _, presentNonEmpty_ite _, presentNonEmpty_ite _, presentNonEmpty_ite _, presentNonEmpty_ite _, presentNonEmpty_ite _, presentNonEmpty_ite _, presentNonEmpty_ite _, presentNonEmpty_ite _, presentNonEmpty_ite _, presentNonEmpty_ite _, presentNonEmpty_ite _, presentNonEmpty_ite _, presentNonEmpty_ite _, presentNonEmpty_ite _, presentNonEmpty_ite _, presentNonEmpty_ite _, presentNonEmpty_ite _, presentNonEmpty_ite _, presentNonEmpty_ite _, presentNonZero_ite _, presentNonZero_ite _, presentNonZero_ite _, presentNonZero_ite _⟩

/-! ## Effects of the operation -/

/-- C15: one invocation of `CopyObject` calls the transport exactly once,
with the input `ToInput r`, whatever the transport answers; when the
transport succeeds no log entry is emitted; when the transport fails and the
wrapper gives the error `err`, exactly one log entry is emitted, the message
of `err`. -/
theorem CopyObject_effects (svc : S3) (ctx : Context) (r : CopyObjectRequest) (w : Effects) :
    (svc.CopyObject ctx r w).1.calls = w.calls ++ [r.ToInput] ∧
    ((svc.CopyObject ctx r w).1.calls.length = w.calls.length + 1) ∧
    ((svc.RawCopyObject ctx r.ToInput).2 = none → (svc.CopyObject ctx r w).1.logs = w.logs) ∧
    (∀ e err, (svc.RawCopyObject ctx r.ToInput).2 = some e →
      svc.errWrap { Err := some e, AWSOperation := "CopyObject" } = some err →
      (svc.CopyObject ctx r w).1.logs = w.logs ++ [err.Error]) := by
  have hcalls : (svc.CopyObject ctx r w).1.calls = w.calls ++ [r.ToInput] := by
    rcases hcall : svc.RawCopyObject ctx r.ToInput with ⟨out, _ | e⟩
    · cases hnew : NewCopyObjectResult out <;> simp only [S3.CopyObject, hcall, hnew]
    · cases hw : svc.errWrap { Err := some e, AWSOperation := "CopyObject" } <;>
        simp only [S3.CopyObject, hcall, hw]
  refine ⟨hcalls, by rw [hcalls]; simp, ?_, ?_⟩
  · intro hok
    rcases hcall : svc.RawCopyObject ctx r.ToInput with ⟨out, _ | e⟩
    · cases hnew : NewCopyObjectResult out <;> simp only [S3.CopyObject, hcall, hnew]
    · rw [hcall] at hok
      exact absurd hok (Option.some_ne_none e)
  · intro e err hfail hwrap
    rcases hcall : svc.RawCopyObject ctx r.ToInput with ⟨out, _ | e0⟩
    · rw [hcall] at hfail
      exact absurd hfail.symm (Option.some_ne_none e)
    · rw [hcall] at hfail
      have he : e0 = e := Option.some.inj hfail
      subst he
      simp only [S3.CopyObject, hcall, hwrap]

theorem CopyObject_effects_witness :
    ((emptyService.RawCopyObject {} (CopyObjectRequest.ToInput { Bucket := "b" })).2 = none ∧
      (emptyService.CopyObject {} { Bucket := "b" } {}).1.logs = []) ∧
    ((failingService.RawCopyObject {} (CopyObjectRequest.ToInput { Bucket := "b" })).2
        = some { Error := "boom" } ∧
      failingService.errWrap { Err := some { Error := "boom" }, AWSOperation := "CopyObject" }
        = some { Error := "CopyObject: boom" } ∧
      (failingService.CopyObject {} { Bucket := "b" } {}).1.logs = [] ++ ["CopyObject: boom"]) :=
  ⟨⟨rfl, (CopyObject_effects emptyService {} { Bucket := "b" } {}).2.2.1 rfl⟩,
    ⟨rfl, by decide,
      (CopyObject_effects failingService {} { Bucket := "b" } {}).2.2.2 { Error := "boom" }
        { Error := "CopyObject: boom" } rfl (by decide)⟩⟩

/-! ## Metadata -/

/-- C16: the input's Metadata is the request's Metadata, with no omission
and no transformation: the same entries for a non-empty map, and a nil map
and an empty map each passed through as it is. -/
theorem ToInput_metadata_passthrough :
    (∀ r : CopyObjectRequest, r.ToInput.Metadata = r.Metadata) ∧
    (CopyObjectRequest.ToInput { Metadata := none }).Metadata = none ∧
    (CopyObjectRequest.ToInput { Metadata := some [] }).Metadata = some [] ∧
    (CopyObjectRequest.ToInput { Metadata := some [("k", "v"), ("", "")] }).Metadata
      = some [("k", "v"), ("", "")] := by
  exact ⟨ToInput_Metadata, ToInput_Metadata _, ToInput_Metadata _, ToInput_Metadata _⟩

/-! ## Emptiness and staging of the tagging composition -/

theorem eq_empty_of_length_eq_zero (s : String) (h : s.length = 0) : s = "" := by
  cases s with
  | mk d =>
    have hd : d = [] := List.length_eq_zero.mp h
    subst hd
    rfl

theorem length_pos_of_ne_empty (s : String) (h : s ≠ "") : 0 < s.length :=
  Nat.pos_of_ne_zero (fun h0 => h (eq_empty_of_length_eq_zero s h0))

theorem ne_empty_of_length_pos (s : String) (h : 0 < s.length) : s ≠ "" := by
  intro hs
  rw [hs] at h
  exact absurd h (by decide)

theorem Join_cons (e : String) (rest : List String) (sep : String) :
    strings.Join (e :: rest) sep = rest.foldl (fun b s => b ++ sep ++ s) e := by
  cases rest <;> rfl

theorem length_le_foldl_sep (sep : String) (rest : List String) (acc : String) :
    acc.length ≤ (rest.foldl (fun b s => b ++ sep ++ s) acc).length := by
  induction rest generalizing acc with
  | nil => exact Nat.le_refl _
  | cons a as ih =>
    refine Nat.le_trans ?_ (ih (acc ++ sep ++ a))
    simp only [String.length_append]
    omega

theorem Join_ne_empty_of_head (e : String) (rest : List String) (sep : String)
    (he : 0 < e.length) : strings.Join (e :: rest) sep ≠ "" := by
  rw [Join_cons]
  exact ne_empty_of_length_pos _ (Nat.lt_of_lt_of_le he (length_le_foldl_sep sep rest e))

theorem tags_eq_Join (r : CopyObjectRequest) : r.tags = strings.Join (tagSegments r) "&" := by
  rw [tags_eq_composedTagging, composedTagging, Join_eq_intercalate]

theorem tagSegments_head (r : CopyObjectRequest)
    (h : r.Tagging ≠ "" ∨ TagSlice.elems r.TaggingTagSet ≠ []) :
    ∃ e rest, tagSegments r = e :: rest ∧ 0 < e.length := by
  unfold tagSegments
  by_cases ht : r.Tagging = ""
  · rcases h with h | h
    · exact absurd ht h
    · cases hset : TagSlice.elems r.TaggingTagSet with
      | nil => exact absurd hset h
      | cons a as =>
        refine ⟨a.Key ++ "=" ++ a.Value, as.map (fun t => t.Key ++ "=" ++ t.Value),
          by simp [ht], ?_⟩
        simp only [String.length_append]
        have : ("=" : String).length = 1 := by decide
        omega
  · exact ⟨r.Tagging, (TagSlice.elems r.TaggingTagSet).map (fun t => t.Key ++ "=" ++ t.Value),
      by simp [ht], length_pos_of_ne_empty _ ht⟩

theorem tags_eq_empty_iff (r : CopyObjectRequest) :
    r.tags = "" ↔ r.Tagging = "" ∧ TagSlice.elems r.TaggingTagSet = [] := by
  constructor
  · intro h
    by_contra hne
    have hor : r.Tagging ≠ "" ∨ TagSlice.elems r.TaggingTagSet ≠ [] := by
      by_cases ht : r.Tagging = ""
      · exact Or.inr (fun hs => hne ⟨ht, hs⟩)
      · exact Or.inl ht
    obtain ⟨e, rest, hseg, he⟩ := tagSegments_head r hor
    rw [tags_eq_Join, hseg] at h
    exact Join_ne_empty_of_head e rest "&" he h
  · rintro ⟨ht, hs⟩
    rw [tags_eq_Join]
    simp [tagSegments, ht, hs, strings.Join]

/-- C17: the input's Tagging is absent exactly when the request's Tagging is
the empty string and its tag set is empty (the nil slice or a slice of
length zero); a non-empty tag set always gives a present, non-empty Tagging,
also when every key and value in it is the empty string (the single entry
with empty key and value gives `=`). -/
theorem ToInput_tagging_absent_iff (r : CopyObjectRequest) :
    (r.ToInput.Tagging = none ↔ r.Tagging = "" ∧ TagSlice.elems r.TaggingTagSet = []) ∧
    (TagSlice.elems r.TaggingTagSet ≠ [] → ∃ v, r.ToInput.Tagging = some v ∧ v ≠ "") ∧
    (CopyObjectRequest.ToInput { TaggingTagSet := some [{ Key := "", Value := "" }] }).Tagging
      = some "=" := by
  refine ⟨?_, ?_, by decide⟩
  · rw [ToInput_Tagging, ← tags_eq_empty_iff]
    by_cases h : r.tags = "" <;> simp [h]
  · intro hset
    have hne : r.tags ≠ "" := fun h => hset ((tags_eq_empty_iff r).mp h).2
    exact ⟨r.tags, by rw [ToInput_Tagging]; simp [hne], hne⟩

theorem ToInput_tagging_absent_iff_witness :
    TagSlice.elems
        ({ TaggingTagSet := some [{ Key := "", Value := "" }, { Key := "k", Value := "" }] }
          : CopyObjectRequest).TaggingTagSet ≠ [] ∧
    ∃ v, (CopyObjectRequest.ToInput
        { TaggingTagSet := some [{ Key := "", Value := "" }, { Key := "k", Value := "" }] }).Tagging
          = some v ∧ v ≠ "" :=
  ⟨by decide,
    (ToInput_tagging_absent_iff
      { TaggingTagSet := some [{ Key := "", Value := "" }, { Key := "k", Value := "" }] }).2.1
      (by decide)⟩

theorem compose_eq_tags (t : String) (L : List Tag) :
    compose t L = CopyObjectRequest.tags { Tagging := t, TaggingTagSet := some L } := by
  unfold compose
  rw [ToInput_Tagging]
  by_cases h : CopyObjectRequest.tags { Tagging := t, TaggingTagSet := some L } = ""
  · simp [h]
  · simp [h]

theorem compose_eq_Join (t : String) (L : List Tag) :
    compose t L = strings.Join
      ((if t = "" then [] else [t]) ++ L.map (fun v => v.Key ++ "=" ++ v.Value)) "&" := by
  rw [compose_eq_tags, tags_eq_Join]
  rfl

theorem tags_eq_compose (r : CopyObjectRequest) :
    r.tags = compose r.Tagging (TagSlice.elems r.TaggingTagSet) := by
  rw [tags_eq_Join, compose_eq_Join]
  rfl

theorem compose_compose (t : String) (a b : List Tag) :
    compose (compose t a) b = compose t (a ++ b) := by
  by_cases hor : t ≠ "" ∨ a ≠ []
  · obtain ⟨e, rest, hseg, he⟩ :=
      tagSegments_head { Tagging := t, TaggingTagSet := some a } hor
    have hseg2 : (if t = "" then [] else [t]) ++ a.map (fun v => v.Key ++ "=" ++ v.Value)
        = e :: rest := hseg
    have hc : compose t a = rest.foldl (fun b s => b ++ "&" ++ s) e := by
      rw [compose_eq_Join, hseg2, Join_cons]
    have hcne : compose t a ≠ "" := by
      rw [compose_eq_Join, hseg2]
      exact Join_ne_empty_of_head e rest "&" he
    rw [compose_eq_Join (compose t a) b, compose_eq_Join t (a ++ b), List.map_append,
      ← List.append_assoc, hseg2]
    rw [hc] at hcne
    simp only [hc, hcne, if_false, List.singleton_append, List.cons_append, Join_cons,
      List.foldl_append, List.foldl_nil]
  · have ht : t = "" := by
      by_contra h
      exact hor (Or.inl h)
    have ha : a = [] := by
      by_contra h
      exact hor (Or.inr h)
    subst ht ha
    have h0 : compose "" [] = "" := by decide
    rw [h0, List.nil_append]

/-- C18: the tagging composition can be done in stages. With `compose t L`
the Tagging value `ToInput` produces from the raw string `t` and the tag set
holding the entries `L` (the empty string standing for absent), composing
`b` onto the composition of `t` and `a` is the composition of `t` and
`a ++ b`; hence a request with Tagging `compose t a` and the entries `b` in
its tag set gives the same input Tagging as a request with Tagging `t` and
the entries `a ++ b`, whatever their other fields. -/
theorem compose_in_stages (t : String) (a b : List Tag) :
    compose (compose t a) b = compose t (a ++ b) ∧
    ∀ r1 r2 : CopyObjectRequest,
      r1.Tagging = compose t a → TagSlice.elems r1.TaggingTagSet = b →
      r2.Tagging = t → TagSlice.elems r2.TaggingTagSet = a ++ b →
      r1.ToInput.Tagging = r2.ToInput.Tagging := by
  refine ⟨compose_compose t a b, fun r1 r2 h1 h2 h3 h4 => ?_⟩
  rw [ToInput_Tagging, ToInput_Tagging, tags_eq_compose r1, tags_eq_compose r2, h1, h2, h3, h4,
    compose_compose]

theorem compose_in_stages_witness :
    (({ Tagging := "a=1&b=2", TaggingTagSet := some [⟨"c", "3"⟩] } : CopyObjectRequest).Tagging
        = compose "a=1" [⟨"b", "2"⟩] ∧
      TagSlice.elems
          ({ Tagging := "a=1&b=2", TaggingTagSet := some [⟨"c", "3"⟩] }
            : CopyObjectRequest).TaggingTagSet
        = [⟨"c", "3"⟩] ∧
      ({ Bucket := "b", Tagging := "a=1", TaggingTagSet := some [⟨"b", "2"⟩, ⟨"c", "3"⟩] }
          : CopyObjectRequest).Tagging = "a=1" ∧
      TagSlice.elems
          ({ Bucket := "b", Tagging := "a=1", TaggingTagSet := some [⟨"b", "2"⟩, ⟨"c", "3"⟩] }
            : CopyObjectRequest).TaggingTagSet
        = [⟨"b", "2"⟩] ++ [⟨"c", "3"⟩]) ∧
    (CopyObjectRequest.ToInput
        { Tagging := "a=1&b=2", TaggingTagSet := some [⟨"c", "3"⟩] }).Tagging
      = (CopyObjectRequest.ToInput
        { Bucket := "b", Tagging := "a=1",
          TaggingTagSet := some [⟨"b", "2"⟩, ⟨"c", "3"⟩] }).Tagging :=
  ⟨⟨by decide, rfl, rfl, rfl⟩,
    (compose_in_stages "a=1" [⟨"b", "2"⟩] [⟨"c", "3"⟩]).2
      { Tagging := "a=1&b=2", TaggingTagSet := some [⟨"c", "3"⟩] }
      { Bucket := "b", Tagging := "a=1", TaggingTagSet := some [⟨"b", "2"⟩, ⟨"c", "3"⟩] }
      (by decide) rfl rfl rfl⟩

end s3
